import Mathlib

/-!
Verification development for the credit-statement proof-of-contribution
pipeline (`my_proof`).  The Python sources are shallowly embedded:

* numeric values are modelled as exact rationals (`ℚ`); the Python code
  performs ordinary `float` arithmetic, which we idealise as exact
  arithmetic on the decimal constants appearing in the source;
* dictionaries with a fixed set of keys become structures whose fields are
  `Option`-valued; a `none` field models a key that is absent (a JSON
  `null` leaf behaves identically to an absent key in every code path the
  claims exercise, so the two are conflated);
* fallible Python expressions (`float(x)` on a non-numeric value) are
  embedded in the `Except String` monad, so an uncaught Python exception
  is an `Except.error` value that propagates through `do`-notation exactly
  as the exception propagates through the call stack;
* the generic nested-dictionary walker of `completeness.py` operates on a
  JSON value type `JValue`.
-/

namespace MyProof

/-- `min` on ℚ in a kernel-computable form (equal to `min`, see
`qmin_eq_min`). -/
def qmin (a b : ℚ) : ℚ := if a ≤ b then a else b

/-- `max` on ℚ in a kernel-computable form. -/
def qmax (a b : ℚ) : ℚ := if a ≤ b then b else a

/-- Absolute value on ℚ in a kernel-computable form (equal to `|·|`,
see `qabs_eq_abs`). -/
def qabs (a : ℚ) : ℚ := if a < 0 then -a else a

/-- `str.upper()` for the ASCII fragment: per-character uppercasing. -/
def pyUpper (s : String) : String := String.mk (s.toList.map Char.toUpper)

/-- `str.strip()`: drop whitespace from both ends. -/
def pyStrip (s : String) : String :=
  String.mk (((s.toList.dropWhile Char.isWhitespace).reverse.dropWhile
    Char.isWhitespace).reverse)

/-- One scanning pass of `str.replace(pat, '')`: remove every
non-overlapping occurrence of `pat`, left to right (fuel-based; every
step consumes at least one character, so `length + 1` fuel suffices). -/
def removeAllAux (pat : List Char) : ℕ → List Char → List Char
  | 0, l => l
  | _ + 1, [] => []
  | fuel + 1, c :: rest =>
      if pat ≠ [] ∧ (c :: rest).take pat.length = pat then
        removeAllAux pat fuel ((c :: rest).drop pat.length)
      else c :: removeAllAux pat fuel rest

/-- `s.replace(pat, '')`. -/
def pyRemoveAll (pat : String) (s : String) : String :=
  String.mk (removeAllAux pat.toList (s.toList.length + 1) s.toList)

/-- `s.startswith(c)` for a single-character prefix. -/
def pyStartsWith (s : String) (c : Char) : Bool :=
  match s.toList with
  | [] => false
  | a :: _ => a = c

/-- Split a character list at every separator satisfying `p`, keeping
empty pieces (the behaviour of `str.split(sep)` with an explicit
separator). -/
def splitPList (p : Char → Bool) : List Char → List (List Char)
  | [] => [[]]
  | c :: rest =>
      let r := splitPList p rest
      if p c then [] :: r
      else
        match r with
        | h :: t => (c :: h) :: t
        | [] => [[c]]

/-- `field_path.split('.')`. -/
def pySplitDot (s : String) : List String :=
  (splitPList (fun c => c = '.') s.toList).map String.mk

/-- Python truthiness of an optional string field (`None` and `''` are
falsy, every other string is truthy). -/
def pyStrTruthy : Option String → Bool
  | some s => s ≠ ""
  | none => false

/-- Python truthiness of an optional numeric field (`None` and `0` are
falsy). -/
def pyNumTruthy : Option ℚ → Bool
  | some q => q ≠ 0
  | none => false

/-- `str.isdigit()` for ASCII digit strings: true iff the string is
non-empty and every character is a decimal digit (Python returns `False`
on the empty string). -/
def pyIsDigit (s : String) : Bool :=
  s.length != 0 && s.toList.all Char.isDigit

/-- Numeric value of a list of decimal digit characters (most significant
first); the empty list denotes 0. -/
def digitsVal (cs : List Char) : ℕ :=
  cs.foldl (fun acc c => 10 * acc + (c.toNat - 48)) 0

/-- `float(s)` on a string, modelled for the decimal fragment
`[ws] [+|-] (digits [. digits] | . digits) [ws]`; exponents, `inf`, `nan`
and digit underscores are outside the modelled input space (no claim
exercises them).  Returns `none` where Python raises `ValueError`. -/
def parsePyFloat (s : String) : Option ℚ :=
  let cs := (pyStrip s).toList
  let signed : ℤ × List Char :=
    match cs with
    | '+' :: r => (1, r)
    | '-' :: r => (-1, r)
    | r => (1, r)
  let sign := signed.1
  let body := signed.2
  let intPart := body.takeWhile Char.isDigit
  let rest := body.drop intPart.length
  match rest with
  | [] =>
      if intPart.isEmpty then none
      else some ((sign : ℚ) * (digitsVal intPart : ℚ))
  | '.' :: frac =>
      if frac.all Char.isDigit && !(intPart.isEmpty && frac.isEmpty) then
        some ((sign : ℚ) *
          ((digitsVal intPart : ℚ) + (digitsVal frac : ℚ) / (10 : ℚ) ^ frac.length))
      else none
  | _ => none

/-- A raw JSON scalar sitting in a transaction's `amount` slot: either a
number or a string (the two shapes the claims exercise). -/
inductive AmountVal where
  | num (q : ℚ)
  | str (s : String)
deriving DecidableEq, Repr

/-- `float(t.get('amount', 0))`: an absent amount coerces to `0`, a
numeric amount is returned, a string amount is parsed and raises
`ValueError` (= `Except.error`) when non-numeric. -/
def pyFloatAmount : Option AmountVal → Except String ℚ
  | none => .ok 0
  | some (.num q) => .ok q
  | some (.str s) =>
      match parsePyFloat s with
      | some q => .ok q
      | none => .error "ValueError"

/-- Round-half-to-even of a rational to an integer (the tie-breaking rule
of Python's `round`). -/
def roundHalfEven (x : ℚ) : ℤ :=
  let f := x.floor
  let r := x - (f : ℚ)
  if r < 1 / 2 then f
  else if r > 1 / 2 then f + 1
  else if f % 2 = 0 then f else f + 1

/-- `round(x, 2)` on our exact-rational idealisation of Python floats. -/
def round2 (x : ℚ) : ℚ :=
  (roundHalfEven (x * 100) : ℚ) / 100

/-! ## `country_config.py` -/

/-- The static `COUNTRY_TIERS` table projected to the tier of each country
code.  The source table additionally carries `name`, `gdp_per_capita` and
`data_premium` strings per entry; no arithmetic of the pipeline reads
them, so the embedding keeps only the tier. -/
def COUNTRY_TIERS : List (String × ℕ) :=
  [("US", 1), ("CA", 1), ("CH", 1), ("NO", 1), ("AU", 1), ("DK", 1),
   ("LU", 1), ("SG", 1), ("IE", 1), ("QA", 1), ("AE", 1),
   ("GB", 2), ("DE", 2), ("FR", 2), ("JP", 2), ("KR", 2), ("NL", 2),
   ("SE", 2), ("AT", 2), ("BE", 2), ("FI", 2), ("IT", 2), ("ES", 2),
   ("IL", 2), ("NZ", 2), ("CZ", 2), ("PT", 2), ("GR", 2), ("CY", 2),
   ("MT", 2), ("IS", 2), ("LI", 2), ("MC", 2), ("SM", 2), ("AD", 2),
   ("VA", 2),
   ("BR", 3), ("MX", 3), ("TR", 3), ("PL", 3), ("MY", 3), ("CL", 3),
   ("AR", 3), ("RU", 3), ("CN", 3), ("SA", 3), ("HR", 3), ("EE", 3),
   ("LV", 3), ("LT", 3), ("SK", 3), ("SI", 3), ("HU", 3), ("RO", 3),
   ("BG", 3), ("UY", 3), ("PA", 3), ("CR", 3), ("TW", 3), ("HK", 3),
   ("MO", 3), ("BH", 3), ("KW", 3), ("OM", 3), ("LB", 3), ("GE", 3),
   ("AM", 3), ("AZ", 3), ("MD", 3),
   ("IN", 4), ("TH", 4), ("PH", 4), ("EG", 4), ("ZA", 4), ("CO", 4),
   ("PE", 4), ("ID", 4), ("MA", 4), ("JO", 4), ("TN", 4), ("DZ", 4),
   ("EC", 4), ("DO", 4), ("GT", 4), ("SV", 4), ("HN", 4), ("NI", 4),
   ("JM", 4), ("UZ", 4), ("KZ", 4), ("UA", 4), ("BY", 4), ("RS", 4),
   ("BA", 4), ("MK", 4), ("AL", 4), ("ME", 4), ("LY", 4), ("IR", 4),
   ("BW", 4), ("NA", 4), ("SZ", 4), ("LS", 4), ("GA", 4), ("GQ", 4),
   ("MU", 4), ("SC", 4), ("CV", 4), ("ST", 4), ("MN", 4), ("KG", 4),
   ("TJ", 4), ("TM", 4), ("FJ", 4), ("PG", 4), ("SB", 4), ("VU", 4),
   ("TO", 4), ("WS", 4), ("FM", 4), ("MH", 4), ("PW", 4), ("KI", 4),
   ("TV", 4), ("NR", 4),
   ("NG", 5), ("BD", 5), ("PK", 5), ("KE", 5), ("VN", 5), ("GH", 5),
   ("LK", 5), ("ET", 5), ("UG", 5), ("TZ", 5), ("RW", 5), ("ZM", 5),
   ("ZW", 5), ("MZ", 5), ("MW", 5), ("BF", 5), ("ML", 5), ("NE", 5),
   ("TD", 5), ("SN", 5), ("CI", 5), ("CM", 5), ("BJ", 5), ("TG", 5),
   ("MM", 5), ("KH", 5), ("LA", 5), ("NP", 5), ("AF", 5), ("IQ", 5),
   ("SY", 5), ("YE", 5), ("SD", 5), ("SS", 5), ("LR", 5), ("SL", 5),
   ("GN", 5), ("GM", 5), ("GW", 5), ("BO", 5), ("PY", 5), ("HT", 5),
   ("CU", 5), ("VE", 5), ("GY", 5), ("SR", 5), ("BZ", 5), ("AG", 5),
   ("BB", 5), ("BS", 5), ("DM", 5), ("GD", 5), ("KN", 5), ("LC", 5),
   ("VC", 5), ("TT", 5), ("AO", 5), ("CF", 5), ("CG", 5), ("CD", 5),
   ("DJ", 5), ("ER", 5), ("SO", 5), ("MR", 5), ("KM", 5), ("MG", 5),
   ("BI", 5), ("BT", 5), ("MV", 5), ("BN", 5), ("TL", 5), ("NC", 5),
   ("PF", 5), ("KP", 5)]

/-- `TIER_MULTIPLIERS` (tiers outside 1..5 do not occur in the table; the
catch-all returns 0, matching no reachable code path). -/
def tierMultiplier : ℕ → ℚ
  | 1 => 1
  | 2 => 8 / 10
  | 3 => 6 / 10
  | 4 => 4 / 10
  | 5 => 3 / 10
  | _ => 0

/-- `SCARCITY_BONUSES`. -/
def scarcityBonus : ℕ → ℚ
  | 1 => 0
  | 2 => 2
  | 3 => 5
  | 4 => 8
  | 5 => 12
  | _ => 0

/-- `PPP_ADJUSTMENTS` (carried in the output, never applied to scores). -/
def pppAdjustment : ℕ → ℚ
  | 1 => 1
  | 2 => 11 / 10
  | 3 => 13 / 10
  | 4 => 18 / 10
  | 5 => 25 / 10
  | _ => 0

/-- The dictionary returned by `CountryScoring.get_country_info`
(projected to the fields the pipeline arithmetic and the claims read). -/
structure CountryInfo where
  country_code : String
  tier : ℕ
  base_multiplier : ℚ
  scarcity_bonus : ℚ
  ppp_adjustment : ℚ
deriving DecidableEq, Repr

/-- The code normalisation at the top of `get_country_info`:
`country_code.upper() if country_code else 'US'` (both a missing field and
the empty string are falsy). -/
def normalizeCountryCode : Option String → String
  | none => "US"
  | some s => if s = "" then "US" else pyUpper s

/-- `CountryScoring.get_country_info`: normalise the code, fall back to
`'US'` when it is not in the table, then read the tier constants. -/
def get_country_info (code : Option String) : CountryInfo :=
  let cc := normalizeCountryCode code
  let cc := if (COUNTRY_TIERS.lookup cc).isSome then cc else "US"
  let tier := (COUNTRY_TIERS.lookup cc).getD 1
  { country_code := cc
    tier := tier
    base_multiplier := tierMultiplier tier
    scarcity_bonus := scarcityBonus tier
    ppp_adjustment := pppAdjustment tier }

/-- The dictionary returned by
`CountryScoring.calculate_country_adjusted_score`. -/
structure CountryAdjusted where
  original_score : ℚ
  country_multiplier : ℚ
  scarcity_bonus : ℚ
  adjusted_total : ℚ
  final_score : ℚ
  vana_score : ℚ
  country_info : CountryInfo
deriving DecidableEq, Repr

/-- `CountryScoring.calculate_country_adjusted_score`. -/
def calculate_country_adjusted_score (base_score : ℚ) (code : Option String) :
    CountryAdjusted :=
  let info := get_country_info code
  let adjusted_score := base_score * info.base_multiplier + info.scarcity_bonus
  let final_score := qmin adjusted_score 100
  { original_score := base_score
    country_multiplier := info.base_multiplier
    scarcity_bonus := info.scarcity_bonus
    adjusted_total := adjusted_score
    final_score := final_score
    vana_score := final_score / 100
    country_info := info }

/-! ## The statement record

Structures mirror the dictionary sections the Python code reads.  Every
`data.get(key, default)` chain is mirrored by an `Option.getD`. -/

/-- A (truthy, non-empty) `statement_period` sub-dictionary.  An empty
dictionary is falsy in Python and behaves like an absent key in every
path read by the code, so it is conflated with `none`. -/
structure SPeriod where
  start_date : Option String
  end_date : Option String
deriving DecidableEq, Repr

/-- `statement_metadata`.  Note that `scoring.py` reads the flat keys
`statement_period_start` / `statement_period_end` while `uniqueness.py`
reads the nested `statement_period` dictionary; the record carries both,
exactly as a JSON document can. -/
structure SMeta where
  record_id : Option String
  statement_date : Option String
  card_identifier : Option String
  country_code : Option String
  statement_period_start : Option String
  statement_period_end : Option String
  statement_period : Option SPeriod
deriving DecidableEq, Repr

/-- `account_info`. -/
structure AccountInfo where
  card_brand : Option String
  card_type : Option String
  account_number_masked : Option String
  credit_limit : Option ℚ
  available_credit : Option ℚ
  current_balance : Option ℚ
deriving DecidableEq, Repr

/-- `financial_summary`. -/
structure FinSummary where
  previous_balance : Option ℚ
  purchases : Option ℚ
  payments_credits : Option ℚ
  fees_charged : Option ℚ
  interest_charged : Option ℚ
  closing_balance : Option ℚ
  available_credit : Option ℚ
deriving DecidableEq, Repr

/-- `spending_patterns` (only the fields any embedded code path reads). -/
structure SpendPat where
  total_transactions : Option ℚ
  average_transaction_amount : Option ℚ
deriving DecidableEq, Repr

/-- `risk_metrics`; `credit_utilization` models the source key
`credit_utilization_ratio`. -/
structure RiskMetrics where
  credit_utilization : Option ℚ
deriving DecidableEq, Repr

/-- `engineered_features`. -/
structure EngFeat where
  spending_trend : Option ℚ
  merchant_diversity_score : Option ℚ
deriving DecidableEq, Repr

/-- A transaction `date` string: `datetime.fromisoformat` is abstracted
as a pre-parsed timestamp measured in (fractional) days, `invalid`
standing for a truthy string on which parsing raises (caught by the
`except` in `calculate_transaction_diversity_score`).  An empty date
string is falsy and filtered out exactly like an absent one, so it is
conflated with `none`. -/
inductive PyDate where
  | valid (t : ℚ)
  | invalid
deriving DecidableEq, Repr

/-- A transaction dictionary (the fields the embedded code reads). -/
structure Txn where
  amount : Option AmountVal
  transaction_type : Option String
  description : Option String
  date : Option PyDate
deriving DecidableEq, Repr

/-- The whole statement record. `transactions` uses the empty list for a
missing key: `data.get('transactions', [])` and the `transactions`
presence test of `completeness.py` both treat the two identically. -/
structure Record where
  statement_metadata : Option SMeta
  account_info : Option AccountInfo
  financial_summary : Option FinSummary
  transactions : List Txn
  spending_patterns : Option SpendPat
  risk_metrics : Option RiskMetrics
  engineered_features : Option EngFeat
deriving DecidableEq, Repr

def emptySMeta : SMeta := ⟨none, none, none, none, none, none, none⟩

def emptyAccountInfo : AccountInfo := ⟨none, none, none, none, none, none⟩

def emptyFinSummary : FinSummary := ⟨none, none, none, none, none, none, none⟩

/-- `data.get('statement_metadata', {})`. -/
def Record.smeta (r : Record) : SMeta := r.statement_metadata.getD emptySMeta

/-- `data.get('account_info', {})`. -/
def Record.acct (r : Record) : AccountInfo := r.account_info.getD emptyAccountInfo

/-- `data.get('financial_summary', {})`. -/
def Record.fin (r : Record) : FinSummary := r.financial_summary.getD emptyFinSummary

/-! ## `validators/financial.py` -/

/-- Result dictionary of `validate_financial_integrity`. -/
structure FinIntegrity where
  balance_score : ℚ
  utilization_score : ℚ
  is_valid : Bool
  balance_difference : ℚ
  expected_closing : ℚ
  actual_closing : ℚ
deriving DecidableEq, Repr

/-- `validate_financial_integrity` (financial.py lines 5-49). -/
def validate_financial_integrity (r : Record) : FinIntegrity :=
  let fin := r.fin
  let previous := fin.previous_balance.getD 0
  let purchases := fin.purchases.getD 0
  let payments := fin.payments_credits.getD 0
  let fees := fin.fees_charged.getD 0
  let interest := fin.interest_charged.getD 0
  let closing := fin.closing_balance.getD 0
  let expected_closing := previous + purchases + fees + interest - payments
  let balance_diff := qabs (expected_closing - closing)
  let balance_score : ℚ :=
    if balance_diff ≤ 1 / 100 then 1
    else if balance_diff ≤ 10 / 100 then 9 / 10
    else if balance_diff ≤ 1 then 7 / 10
    else 0
  let credit_limit := r.acct.credit_limit.getD 0
  let utilization := (r.risk_metrics.getD ⟨none⟩).credit_utilization.getD 0
  let utilization_score : ℚ :=
    if credit_limit > 0 then
      if qabs (closing / credit_limit - utilization) ≤ 5 / 100 then 1 else 1 / 2
    else 8 / 10
  { balance_score := balance_score
    utilization_score := utilization_score
    is_valid := balance_score ≥ 7 / 10 ∧ utilization_score ≥ 1 / 2
    balance_difference := balance_diff
    expected_closing := expected_closing
    actual_closing := closing }

/-- `t.get('transaction_type', '').upper()`. -/
def Txn.typU (t : Txn) : String := pyUpper (t.transaction_type.getD "")

/-- The `calculated_purchases` generator: left-to-right, `float` is
evaluated only for transactions whose type matches (short-circuit of
`and`), the first non-numeric matching amount raises. -/
def sumPurchases : List Txn → Except String ℚ
  | [] => .ok 0
  | t :: ts =>
      if t.typU = "PURCHASE" then do
        let q ← pyFloatAmount t.amount
        let s ← sumPurchases ts
        pure (if q > 0 then q + s else s)
      else sumPurchases ts

/-- The `calculated_payments` generator (sums `abs(amount)` over
`PAYMENT` transactions with negative amount). -/
def sumPayments : List Txn → Except String ℚ
  | [] => .ok 0
  | t :: ts =>
      if t.typU = "PAYMENT" then do
        let q ← pyFloatAmount t.amount
        let s ← sumPayments ts
        pure (if q < 0 then qabs q + s else s)
      else sumPayments ts

/-- The `calculated_fees` generator (sums all `FEE` amounts, no sign
filter). -/
def sumFees : List Txn → Except String ℚ
  | [] => .ok 0
  | t :: ts =>
      if t.typU = "FEE" then do
        let q ← pyFloatAmount t.amount
        let s ← sumFees ts
        pure (q + s)
      else sumFees ts

/-- Result dictionary of `validate_transaction_consistency`.  On the
empty-transactions early return the source dictionary carries only
`consistency_score` and `is_valid`; the remaining fields are filled with
`false` / `0` defaults there. -/
structure ConsResult where
  consistency_score : ℚ
  is_valid : Bool
  purchase_match : Bool
  payment_match : Bool
  fee_match : Bool
  calculated_purchases : ℚ
  calculated_payments : ℚ
  calculated_fees : ℚ
deriving DecidableEq, Repr

/-- `validate_transaction_consistency` (financial.py lines 52-105). -/
def validate_transaction_consistency (r : Record) : Except String ConsResult :=
  if r.transactions.isEmpty then
    .ok ⟨0, false, false, false, false, 0, 0, 0⟩
  else do
    let calculated_purchases ← sumPurchases r.transactions
    let calculated_payments ← sumPayments r.transactions
    let calculated_fees ← sumFees r.transactions
    let fin := r.fin
    let summary_purchases := fin.purchases.getD 0
    let summary_payments := fin.payments_credits.getD 0
    let summary_fees := fin.fees_charged.getD 0
    let tolerance : ℚ := 2 / 100
    let purchase_match : Bool := qabs (calculated_purchases - summary_purchases) ≤ tolerance
    let payment_match : Bool := qabs (calculated_payments - summary_payments) ≤ tolerance
    let fee_match : Bool :=
      if summary_fees > 0 then qabs (calculated_fees - summary_fees) ≤ tolerance else true
    let consistency_score : ℚ :=
      ((if purchase_match then 1 else 0) + (if payment_match then 1 else 0) +
        (if fee_match then 1 else 0)) / 3
    pure
      { consistency_score := consistency_score
        is_valid := consistency_score ≥ 8 / 10
        purchase_match := purchase_match
        payment_match := payment_match
        fee_match := fee_match
        calculated_purchases := calculated_purchases
        calculated_payments := calculated_payments
        calculated_fees := calculated_fees }

/-! ## `validators/fraud.py` -/

/-- Every other element of a list, starting with the first
(`xs[0::2]`). -/
def everyOther : List α → List α
  | [] => []
  | [a] => [a]
  | a :: _ :: rest => a :: everyOther rest

/-- `sum(digits_of(n))` for `n = d*2`, `d ≤ 9`: the decimal digit sum of
a number below 100. -/
def pyDigitSum (n : ℕ) : ℕ := n / 10 + n % 10

/-- The nested `luhn_checksum` helper of `luhn_validate` (fraud.py lines
55-65): per-character digits, `odd_digits = digits[-1::-2]`,
`even_digits = digits[-2::-2]`, total modulo 10. -/
def luhn_checksum (card_num : String) : ℕ :=
  let digits := card_num.toList.map (fun c => c.toNat - 48)
  let rev := digits.reverse
  let odd_digits := everyOther rev
  let even_digits := everyOther (rev.drop 1)
  (odd_digits.sum + (even_digits.map (fun d => pyDigitSum (d * 2))).sum) % 10

/-- `luhn_validate` (fraud.py lines 46-67): strip spaces and dashes
(`str.replace(c, '')` of a single character removes every occurrence,
embedded as a character filter), require a pure digit string, then
accept iff the checksum is 0. -/
def luhn_validate (card_number : String) : Bool :=
  let cn := String.mk (card_number.toList.filter (fun c => !(c = ' ' || c = '-')))
  if !pyIsDigit cn then false
  else luhn_checksum cn == 0

/-- Result of `validate_card_brand_consistency`. -/
structure BrandCheck where
  consistent : Bool
  expected_brand : String
  reported_brand : String
deriving DecidableEq, Repr

/-- `validate_card_brand_consistency` (fraud.py lines 70-105). -/
def validate_card_brand_consistency (masked_number : String) (r : Record) :
    BrandCheck :=
  let expected_brand :=
    if pyStartsWith masked_number '4' then "VISA"
    else if pyStartsWith masked_number '5' || pyStartsWith masked_number '2' then "MASTERCARD"
    else if pyStartsWith masked_number '3' then
      if masked_number.length ≥ 2 then
        if masked_number.toList.getD 1 ' ' = '4' || masked_number.toList.getD 1 ' ' = '7' then
          "AMEX"
        else "DINERS"
      else "AMEX"
    else if pyStartsWith masked_number '6' then "DISCOVER"
    else "UNKNOWN"
  let reported_brand := pyUpper (r.acct.card_brand.getD "")
  let brand_matches :=
    expected_brand = reported_brand ||
    (reported_brand = "UNKNOWN" || reported_brand = "OTHER" || reported_brand = "") ||
    expected_brand = "UNKNOWN"
  ⟨brand_matches, expected_brand, reported_brand⟩

/-- Result of `detect_card_fraud`; the indicator list is projected to the
`type` field of each indicator dictionary (the `details` values are
informational strings). -/
structure FraudResult where
  is_fraudulent : Bool
  fraud_indicators : List String
deriving DecidableEq, Repr

/-- `detect_card_fraud` (fraud.py lines 5-43).  Note the gate tests
`len(card_identifier) >= 13` on the RAW identifier (separators included)
while `isdigit` is tested on the cleaned string. -/
def detect_card_fraud (r : Record) : FraudResult :=
  let card_identifier := r.smeta.card_identifier.getD ""
  let clean_card :=
    String.mk (card_identifier.toList.filter (fun c => !(c = '*' || c = '-' || c = ' ')))
  let fraud_indicators : List String :=
    if card_identifier.length ≥ 13 ∧ pyIsDigit clean_card then
      if !card_identifier.toList.contains '*' then
        "PRIVACY_VIOLATION" ::
          (if !luhn_validate card_identifier then ["INVALID_CARD_NUMBER"] else [])
      else
        if !(validate_card_brand_consistency card_identifier r).consistent then
          ["BRAND_MISMATCH"]
        else []
    else []
  ⟨!fraud_indicators.isEmpty, fraud_indicators⟩

/-! ## `validators/uniqueness.py` -/

/-- Result of `validate_uniqueness` (projected to the verdict and the
reason; the success dictionary has no `reason` key, modelled `none`). -/
structure UniqueResult where
  is_unique : Bool
  reason : Option String
deriving DecidableEq, Repr

/-- The statement-period stage at the bottom of `validate_uniqueness`. -/
def uniquenessPeriodCheck (r : Record) : UniqueResult :=
  let statement_period := r.smeta.statement_period
  let card_identifier := r.smeta.card_identifier
  match statement_period with
  | some sp =>
      if pyStrTruthy card_identifier then
        if !pyStrTruthy sp.start_date || !pyStrTruthy sp.end_date then
          ⟨false, some "INVALID_STATEMENT_PERIOD"⟩
        else ⟨true, none⟩
      else ⟨true, none⟩
  | none => ⟨true, none⟩

/-- `validate_uniqueness` (uniqueness.py lines 5-62).  The blockchain
client is modelled by the outcome of its one call:
`some (.ok n)` = `get_contributor_file_count()` returns `n`,
`some (.error e)` = the call raises, `none` = no client supplied.  The
`try/except` around the call is the `match` on that outcome. -/
def validate_uniqueness (r : Record) (client : Option (Except String ℕ)) :
    UniqueResult :=
  if !pyStrTruthy r.smeta.record_id then ⟨false, some "MISSING_RECORD_ID"⟩
  else
    match client with
    | some (.ok existing_count) =>
        if existing_count > 0 then ⟨false, some "DUPLICATE_RECORD_ID"⟩
        else uniquenessPeriodCheck r
    | some (.error _) => ⟨false, some "BLOCKCHAIN_CHECK_FAILED"⟩
    | none => uniquenessPeriodCheck r

/-! ## `validators/completeness.py` -/

/-- A JSON value, the input type of the generic nested-field walker. -/
inductive JValue where
  | null
  | b (x : Bool)
  | num (q : ℚ)
  | str (s : String)
  | arr (xs : List JValue)
  | obj (kvs : List (String × JValue))

/-- Walk a key path through nested dictionaries; `none` when some level
is not a dictionary or lacks the key (`has_field`'s loop). -/
def jWalk : JValue → List String → Option JValue
  | v, [] => some v
  | .obj kvs, k :: ks =>
      match kvs.lookup k with
      | some v => jWalk v ks
      | none => none
  | _, _ :: _ => none

/-- `has_field` (completeness.py lines 71-86): every intermediate level
must be a dictionary containing the key; the leaf must be non-null —
except for the path `transactions`, which must be a non-empty list. -/
def has_field (data : JValue) (field_path : String) : Bool :=
  match jWalk data (pySplitDot field_path) with
  | none => false
  | some v =>
      if field_path = "transactions" then
        match v with
        | .arr xs => !xs.isEmpty
        | _ => false
      else
        match v with
        | .null => false
        | _ => true

def tier1_fields : List String :=
  ["statement_metadata.record_id",
   "statement_metadata.statement_date",
   "statement_metadata.statement_period.start_date",
   "statement_metadata.statement_period.end_date",
   "financial_summary.previous_balance",
   "financial_summary.closing_balance",
   "financial_summary.purchases",
   "financial_summary.payments_credits",
   "transactions"]

def tier2_fields : List String :=
  ["account_info.card_brand",
   "account_info.credit_limit",
   "financial_summary.fees_charged",
   "financial_summary.interest_charged",
   "financial_summary.available_credit"]

def tier3_fields : List String :=
  ["spending_patterns.total_transactions",
   "spending_patterns.average_transaction_amount",
   "risk_metrics.credit_utilization_ratio",
   "engineered_features.spending_trend",
   "engineered_features.merchant_diversity_score"]

/-- `calculate_tier_score` (completeness.py lines 57-68). -/
def calculate_tier_score (data : JValue) (fields : List String) : ℚ :=
  if fields.isEmpty then 1
  else (fields.countP (fun f => has_field data f) : ℚ) / (fields.length : ℚ)

/-- `get_missing_fields` (completeness.py lines 89-97). -/
def get_missing_fields (data : JValue) (fields : List String) : List String :=
  fields.filter (fun f => !has_field data f)

/-- Result of `calculate_completeness_score`. -/
structure CompletenessResult where
  completeness_score : ℚ
  tier1_score : ℚ
  tier2_score : ℚ
  tier3_score : ℚ
  is_complete : Bool
  missing_tier1 : List String
  missing_tier2 : List String
  missing_tier3 : List String

/-- `calculate_completeness_score` (completeness.py lines 5-54). -/
def calculate_completeness_score (data : JValue) : CompletenessResult :=
  let tier1_score := calculate_tier_score data tier1_fields
  let tier2_score := calculate_tier_score data tier2_fields
  let tier3_score := calculate_tier_score data tier3_fields
  let overall_score := 60 / 100 * tier1_score + 25 / 100 * tier2_score + 15 / 100 * tier3_score
  { completeness_score := overall_score
    tier1_score := tier1_score
    tier2_score := tier2_score
    tier3_score := tier3_score
    is_complete := overall_score ≥ 8 / 10
    missing_tier1 := get_missing_fields data tier1_fields
    missing_tier2 := get_missing_fields data tier2_fields
    missing_tier3 := get_missing_fields data tier3_fields }

/-! ## `validators/scoring.py` -/

/-- ASCII `\w` (Python word character). -/
def isPyWordChar (c : Char) : Bool := c.isAlphanum || c = '_'

/-- The index of the last digit inside a word-character run, among
indices `≥ 1` (the backtracking of `\*\w+\d+`: `\w+` keeps the longest
prefix after which `\d+` can still match, so a match ends at the last
digit of the run and needs at least one run character before it). -/
def lastDigitIdx (run : List Char) : Option ℕ :=
  (((List.range run.length).filter
      (fun j => decide (1 ≤ j) && (run.getD j 'x').isDigit))).max?

/-- `re.sub(r'\*\w+\d+', '', s)`: left-to-right scan; at each `'*'`,
match `'*'` followed by the word-character run up to its last digit
(provided the run has a digit at index `≥ 1`), remove it, and continue
after the match.  Fuel-based recursion (each step consumes at least one
character, so `length + 1` fuel always suffices). -/
def sub1Aux : ℕ → List Char → List Char
  | 0, l => l
  | _ + 1, [] => []
  | fuel + 1, c :: rest =>
      if c = '*' then
        let run := rest.takeWhile isPyWordChar
        match lastDigitIdx run with
        | some j => sub1Aux fuel (rest.drop (j + 1))
        | none => c :: sub1Aux fuel rest
      else c :: sub1Aux fuel rest

/-- `re.sub(r'\d{6,}', '', s)`: remove every maximal digit run of length
at least 6. -/
def sub2Aux : ℕ → List Char → List Char
  | 0, l => l
  | _ + 1, [] => []
  | fuel + 1, c :: rest =>
      if c.isDigit then
        let run := (c :: rest).takeWhile Char.isDigit
        if run.length ≥ 6 then sub2Aux fuel ((c :: rest).drop run.length)
        else run ++ sub2Aux fuel ((c :: rest).drop run.length)
      else c :: sub2Aux fuel rest

/-- `clean_bank_description` (scoring.py lines 224-245): drop the five
bank prefixes (`str.replace` removes every occurrence), remove
`\*\w+\d+` reference tokens and digit runs of length ≥ 6, then strip. -/
def clean_bank_description (description : String) : String :=
  let cleaned :=
    ["DEBIT CARD PURCHASE ", "ONLINE PAYMENT ", "RECURRING PAYMENT ",
     "ATM WITHDRAWAL ", "CHECK CARD PURCHASE "].foldl
      (fun s p => pyRemoveAll p s) description
  let cleaned := String.mk (sub1Aux (cleaned.toList.length + 1) cleaned.toList)
  let cleaned := String.mk (sub2Aux (cleaned.toList.length + 1) cleaned.toList)
  pyStrip cleaned

/-- Python `str.split()` with no argument: split on whitespace runs,
discarding empty pieces. -/
def pySplit (s : String) : List String :=
  ((splitPList (fun c => c.isWhitespace) s.toList).map String.mk).filter (fun w => w ≠ "")

/-- `extract_merchant_key` (scoring.py lines 248-263). -/
def extract_merchant_key (cleaned_description : String) : Option String :=
  if cleaned_description.length < 3 then none
  else
    match pySplit cleaned_description with
    | [] => none
    | [w] => some (String.mk (w.toList.take 15))
    | w1 :: w2 :: _ => some (String.mk ((w1 ++ " " ++ w2).toList.take 15))

/-- `extract_unique_merchants_from_descriptions` (scoring.py lines
204-221): the size of the set of qualifying merchant keys. -/
def extract_unique_merchants_from_descriptions (transactions : List Txn) : ℕ :=
  (transactions.filterMap (fun t =>
      match extract_merchant_key
              (clean_bank_description (pyUpper (t.description.getD ""))) with
      | some k => if k ≠ "" ∧ k.length ≥ 3 then some k else none
      | none => none)).dedup.length

/-- `calculate_transaction_volume_score` (scoring.py lines 60-79). -/
def calculate_transaction_volume_score (r : Record) : ℚ :=
  let count := r.transactions.length
  if count ≥ 50 then 25
  else if count ≥ 30 then 22
  else if count ≥ 20 then 18
  else if count ≥ 10 then 12
  else if count ≥ 5 then 6
  else if count ≥ 1 then 2
  else 0

def listMaxQ : List ℚ → ℚ
  | [] => 0
  | v :: rest => rest.foldl qmax v

def listMinQ : List ℚ → ℚ
  | [] => 0
  | v :: rest => rest.foldl qmin v

/-- `abs(float(t.get('amount', 0)))` over a transaction list, errors
propagating in order. -/
def absAmounts (transactions : List Txn) : Except String (List ℚ) :=
  transactions.mapM (fun t => do
    let q ← pyFloatAmount t.amount
    pure (qabs q))

/-- The pure tail of `calculate_transaction_diversity_score` once the
amounts are computed: merchant-variety, amount-variety and date-spread
components, 20 points max. -/
def diversity_pure (transactions : List Txn) (amounts : List ℚ) : ℚ :=
  let unique_merchants := extract_unique_merchants_from_descriptions transactions
  let merchantShare : ℚ := (unique_merchants : ℚ) / (transactions.length : ℚ)
  let unique_amounts := ((amounts.map round2).dedup).length
  let amount_variety_score : ℚ := qmin ((unique_amounts : ℚ) / 10) 1
  let dates := transactions.filterMap (fun t => t.date)
  let date_consistency_score : ℚ :=
    if dates.any (fun d => match d with | .invalid => true | .valid _ => false) then 0
    else
      let vs := dates.filterMap (fun d =>
        match d with | .valid t => some t | .invalid => none)
      if vs.length > 1 then
        qmin (((listMaxQ vs - listMinQ vs).floor : ℚ) / 30) 1
      else 0
  let diversity_score :=
    merchantShare * 8 + amount_variety_score * 7 + date_consistency_score * 5
  qmin 20 diversity_score

/-- `calculate_transaction_diversity_score` (scoring.py lines 82-117).
`float(t.get('amount', 0))` on a non-numeric amount raises; the `try`
only wraps the date handling, so that error escapes (`Except.error`).
An invalid date string makes the whole comprehension raise, caught by
the `except` → date score 0.  `(max(dates) - min(dates)).days` floors
the span. -/
def calculate_transaction_diversity_score (r : Record) : Except String ℚ :=
  if r.transactions.isEmpty then .ok 0
  else do
    let amounts ← absAmounts r.transactions
    pure (diversity_pure r.transactions amounts)

/-- The pure tail of `calculate_transaction_detail_score`. -/
def detail_pure (transactions : List Txn) (amounts : List ℚ) : ℚ :=
  let detailed_txns := transactions.countP (fun t => (t.description.getD "").length > 20)
  let description_score : ℚ := (detailed_txns : ℚ) / (transactions.length : ℚ) * 10
  let realistic_amounts := amounts.countP (fun amt => decide (1 ≤ amt) && decide (amt ≤ 5000))
  let realism_score : ℚ := (realistic_amounts : ℚ) / (transactions.length : ℚ) * 5
  description_score + realism_score

/-- `calculate_transaction_detail_score` (scoring.py lines 120-137). -/
def calculate_transaction_detail_score (r : Record) : Except String ℚ :=
  if r.transactions.isEmpty then .ok 0
  else do
    let amounts ← absAmounts r.transactions
    pure (detail_pure r.transactions amounts)

/-- `calculate_core_statement_score` (scoring.py lines 140-166); Python
truthiness on each field (`0`, `''`, `None` falsy), except
`current_balance`, tested with `is not None`. -/
def calculate_core_statement_score (r : Record) : ℚ :=
  let sm := r.smeta
  let ai := r.acct
  let score : ℚ :=
    (if pyStrTruthy sm.statement_date then 5 else 0) +
    (if pyStrTruthy ai.account_number_masked then 5 else 0) +
    (if pyNumTruthy ai.credit_limit then 5 else 0) +
    (if r.transactions.length > 0 then 5 else 0) +
    (if pyStrTruthy sm.statement_period_start ∧ pyStrTruthy sm.statement_period_end
      then 3 else 0) +
    (if ai.current_balance.isSome then 2 else 0)
  qmin score 25

/-- `calculate_account_completeness_score` (scoring.py lines 169-185). -/
def calculate_account_completeness_score (r : Record) : ℚ :=
  let ai := r.acct
  let score : ℚ :=
    (if pyStrTruthy ai.card_brand then 3 else 0) +
    (if pyStrTruthy ai.card_type then 2 else 0) +
    (if pyNumTruthy ai.credit_limit then 3 else 0) +
    (if pyNumTruthy ai.available_credit then 2 else 0)
  qmin score 10

/-- `calculate_financial_consistency_score` (scoring.py lines 188-201). -/
def calculate_financial_consistency_score (r : Record) : ℚ :=
  let ai := r.acct
  if ai.current_balance.isSome ∧ ai.credit_limit.isSome then 5
  else if ai.current_balance.isSome then 3
  else 1

/-- The dictionary returned by `calculate_credit_statement_score` on its
(only) success path, projected to the response fields and the breakdown
entries any claim reads.  The success dictionary has no `rejected` key,
so `validation_result.get('rejected')` in `proof.py` is falsy: modelled
by `rejected := false`, `reason := none`. -/
structure ScoreResult where
  score : ℚ
  total_points : ℚ
  quality : ℚ
  valid : Bool
  rejected : Bool
  reason : Option String
  country_info : CountryInfo
  raw_total : ℚ
  country_multiplier : ℚ
  scarcity_bonus : ℚ
  country_adjusted_total : ℚ
deriving DecidableEq, Repr

/-- The response dictionary built at the bottom of
`calculate_credit_statement_score` from the summed total (lines 30-57):
country adjustment of the raw total, `valid := True` unconditionally. -/
def scoreFromTotal (r : Record) (base_total_points : ℚ) : ScoreResult :=
  let country_adjusted :=
    calculate_country_adjusted_score base_total_points (some (r.smeta.country_code.getD "US"))
  { score := country_adjusted.vana_score
    total_points := country_adjusted.final_score
    quality := country_adjusted.vana_score
    valid := true
    rejected := false
    reason := none
    country_info := country_adjusted.country_info
    raw_total := base_total_points
    country_multiplier := country_adjusted.country_multiplier
    scarcity_bonus := country_adjusted.scarcity_bonus
    country_adjusted_total := country_adjusted.adjusted_total }

/-- `calculate_credit_statement_score` (scoring.py lines 8-57).  The six
sub-scores are computed in source order and summed; the total is handed
to the country adjuster; the function never produces a rejection. -/
def calculate_credit_statement_score (r : Record) : Except String ScoreResult := do
  let transaction_diversity ← calculate_transaction_diversity_score r
  let transaction_detail ← calculate_transaction_detail_score r
  pure (scoreFromTotal r
    (calculate_transaction_volume_score r + transaction_diversity + transaction_detail +
      calculate_core_statement_score r + calculate_account_completeness_score r +
      calculate_financial_consistency_score r))

/-! ## `proof.py` -/

/-- The `ProofResponse` fields `Proof.generate` writes. -/
structure ProofResponse where
  valid : Bool
  score : ℚ
  quality : ℚ
  authenticity : ℚ
  uniqueness : ℚ
  ownership : ℚ
  rejection_reason : Option String
deriving DecidableEq, Repr

deriving instance DecidableEq for Except

/-- `Proof.generate` (proof.py lines 16-71).  Modelled from the spec:
`_load_input_data` (file I/O) and `validate_schema`
(`my_proof/utils/schema.py`, not under `src/`) are external
collaborators — the loaded document is passed in as `input_data`
(`none` = no parseable input) and the schema verdict as `schema_valid`.
Everything after those two checks is embedded from `proof.py` itself:
`calculate_credit_statement_score` is called with no surrounding
`try`/`except`, so an `Except.error` it returns propagates out of
`generate`. -/
def generate (input_data : Option Record) (schema_valid : Bool) :
    Except String ProofResponse :=
  match input_data with
  | none => .ok ⟨false, 0, 0, 0, 0, 0, some "NO_INPUT_DATA"⟩
  | some data =>
      if !schema_valid then .ok ⟨false, 0, 0, 0, 0, 0, some "INVALID_SCHEMA"⟩
      else do
        let validation_result ← calculate_credit_statement_score data
        if validation_result.rejected then
          pure ⟨false, 0, 0, 0, 0, 0, validation_result.reason⟩
        else
          pure ⟨true, validation_result.score, validation_result.quality, 1, 1, 1, none⟩

/-! ## Serialising a structured record back to JSON

`completeness.py` receives the same JSON document as the scorer; the
bridge below is the canonical serialisation of the structured record
(fields present iff `some`; the `transactions` key always present, since
an absent key and an empty list are indistinguishable to every embedded
reader). -/

def optField (k : String) (f : α → JValue) : Option α → List (String × JValue)
  | some a => [(k, f a)]
  | none => []

def SPeriod.toJ (sp : SPeriod) : JValue :=
  .obj (optField "start_date" JValue.str sp.start_date ++
        optField "end_date" JValue.str sp.end_date)

def SMeta.toJ (sm : SMeta) : JValue :=
  .obj (optField "record_id" JValue.str sm.record_id ++
        optField "statement_date" JValue.str sm.statement_date ++
        optField "card_identifier" JValue.str sm.card_identifier ++
        optField "country_code" JValue.str sm.country_code ++
        optField "statement_period_start" JValue.str sm.statement_period_start ++
        optField "statement_period_end" JValue.str sm.statement_period_end ++
        optField "statement_period" SPeriod.toJ sm.statement_period)

def AccountInfo.toJ (ai : AccountInfo) : JValue :=
  .obj (optField "card_brand" JValue.str ai.card_brand ++
        optField "card_type" JValue.str ai.card_type ++
        optField "account_number_masked" JValue.str ai.account_number_masked ++
        optField "credit_limit" JValue.num ai.credit_limit ++
        optField "available_credit" JValue.num ai.available_credit ++
        optField "current_balance" JValue.num ai.current_balance)

def FinSummary.toJ (fs : FinSummary) : JValue :=
  .obj (optField "previous_balance" JValue.num fs.previous_balance ++
        optField "purchases" JValue.num fs.purchases ++
        optField "payments_credits" JValue.num fs.payments_credits ++
        optField "fees_charged" JValue.num fs.fees_charged ++
        optField "interest_charged" JValue.num fs.interest_charged ++
        optField "closing_balance" JValue.num fs.closing_balance ++
        optField "available_credit" JValue.num fs.available_credit)

def SpendPat.toJ (sp : SpendPat) : JValue :=
  .obj (optField "total_transactions" JValue.num sp.total_transactions ++
        optField "average_transaction_amount" JValue.num sp.average_transaction_amount)

def RiskMetrics.toJ (rm : RiskMetrics) : JValue :=
  .obj (optField "credit_utilization_ratio" JValue.num rm.credit_utilization)

def EngFeat.toJ (ef : EngFeat) : JValue :=
  .obj (optField "spending_trend" JValue.num ef.spending_trend ++
        optField "merchant_diversity_score" JValue.num ef.merchant_diversity_score)

def AmountVal.toJ : AmountVal → JValue
  | .num q => .num q
  | .str s => .str s

/-- Transaction serialisation; the nested-field walker never descends
into transaction entries (only the list length matters), so the `date`
abstraction is serialised as a marker string. -/
def Txn.toJ (t : Txn) : JValue :=
  .obj (optField "amount" AmountVal.toJ t.amount ++
        optField "transaction_type" JValue.str t.transaction_type ++
        optField "description" JValue.str t.description ++
        optField "date" (fun _ => JValue.str "date") t.date)

/-- The serialised entries preceding the `transactions` key. -/
def Record.jPre (r : Record) : List (String × JValue) :=
  optField "statement_metadata" SMeta.toJ r.statement_metadata ++
  optField "account_info" AccountInfo.toJ r.account_info ++
  optField "financial_summary" FinSummary.toJ r.financial_summary

/-- The serialised entries following the `transactions` key. -/
def Record.jPost (r : Record) : List (String × JValue) :=
  optField "spending_patterns" SpendPat.toJ r.spending_patterns ++
  optField "risk_metrics" RiskMetrics.toJ r.risk_metrics ++
  optField "engineered_features" EngFeat.toJ r.engineered_features

def Record.toJ (r : Record) : JValue :=
  .obj (r.jPre ++ [("transactions", .arr (r.transactions.map Txn.toJ))] ++ r.jPost)

/-- Appending one transaction to a record's transaction list (the
extension operation of the monotonicity claim); every other field is
untouched. -/
def appendTxn (r : Record) (t : Txn) : Record :=
  { r with transactions := r.transactions ++ [t] }

/-- Tier-1 plus tier-2 field coverage of a record, as measured by the
completeness analyzer on its serialised JSON form (the coverage notion
of the monotonicity claim). -/
def cov12 (r : Record) : ℚ :=
  (calculate_completeness_score r.toJ).tier1_score +
    (calculate_completeness_score r.toJ).tier2_score

/-! ## Spec-side definitions (written from the claims, for refinement
comparisons) -/

/-- Modelled from the spec: "double every second digit from the
rightmost digit, sum digit-of-doubled-result's individual digits when
doubling overflows past 9" — the per-digit contribution of a doubled
position (for a decimal digit, summing the digits of `2n > 9` is
`2n - 9`). -/
def specDouble (n : ℕ) : ℕ := if 2 * n > 9 then 2 * n - 9 else 2 * n

/-- Modelled from the spec, processing digits from the rightmost: keep
the first (rightmost), double the second, and so on alternating. -/
def specLuhnAux : List ℕ → ℕ
  | [] => 0
  | [a] => a
  | a :: b :: rest => a + specDouble b + specLuhnAux rest

/-- Modelled from the spec: the Luhn total of a digit list (most
significant first) — "double every second digit from the rightmost
digit, sum all". -/
def specLuhnSum (ds : List ℕ) : ℕ := specLuhnAux ds.reverse

/-- The numeric value of a transaction amount (0 when absent, the parsed
value when numeric; the non-numeric case is irrelevant wherever this is
used under an "all amounts numeric" hypothesis). -/
def amtD (t : Txn) : ℚ :=
  match pyFloatAmount t.amount with
  | .ok q => q
  | .error _ => 0

/-- The claim's recomputed purchases total: sum of amounts with type
`PURCHASE` and positive amount. -/
def claimPurchases (r : Record) : ℚ :=
  ((r.transactions.filter (fun t => t.typU = "PURCHASE" && decide (amtD t > 0))).map
    amtD).sum

/-- The claim's recomputed payments total: sum of `|amount|` with type
`PAYMENT` and negative amount. -/
def claimPayments (r : Record) : ℚ :=
  ((r.transactions.filter (fun t => t.typU = "PAYMENT" && decide (amtD t < 0))).map
    (fun t => |amtD t|)).sum

/-- The claim's recomputed fees total: sum of amounts with type `FEE`. -/
def claimFees (r : Record) : ℚ :=
  ((r.transactions.filter (fun t => t.typU = "FEE")).map amtD).sum

/-- Modelled from the claim's words (C5): each recomputed total matches
the summary field within absolute tolerance 0.02, the fee comparison
vacuously true when the summary fees are ZERO; the score is the match
count over 3. -/
def claimConsistencyScore (r : Record) : ℚ :=
  let pm : Bool := |claimPurchases r - r.fin.purchases.getD 0| ≤ 2 / 100
  let pym : Bool := |claimPayments r - r.fin.payments_credits.getD 0| ≤ 2 / 100
  let sf := r.fin.fees_charged.getD 0
  let fm : Bool := sf = 0 || decide (|claimFees r - sf| ≤ 2 / 100)
  ((if pm then 1 else 0) + (if pym then 1 else 0) + (if fm then 1 else 0)) / 3

/-- Modelled from the AMENDED claim (C5): the three recomputed totals,
each compared to the matching summary field within absolute tolerance
0.02, the fee comparison vacuously true whenever the summary fee is not
positive; the score is the match count over 3 and `is_valid` holds at
`≥ 0.8`. -/
def amendedConsResult (r : Record) : ConsResult :=
  let pm : Bool := |claimPurchases r - r.fin.purchases.getD 0| ≤ 2 / 100
  let pym : Bool := |claimPayments r - r.fin.payments_credits.getD 0| ≤ 2 / 100
  let fm : Bool :=
    if r.fin.fees_charged.getD 0 > 0 then
      |claimFees r - r.fin.fees_charged.getD 0| ≤ (2 / 100 : ℚ)
    else true
  let score : ℚ :=
    ((if pm then 1 else 0) + (if pym then 1 else 0) + (if fm then 1 else 0)) / 3
  { consistency_score := score
    is_valid := score ≥ 8 / 10
    purchase_match := pm
    payment_match := pym
    fee_match := fm
    calculated_purchases := claimPurchases r
    calculated_payments := claimPayments r
    calculated_fees := claimFees r }

/-! ## Concrete example records used by the closed theorems -/

/-- A record with an unmasked 16-digit card identifier (failing Luhn)
and one perfectly ordinary transaction. -/
def recC1 : Record :=
  { statement_metadata :=
      some { emptySMeta with card_identifier := some "4111111111111112" }
    account_info := none
    financial_summary := none
    transactions := [⟨some (.num (51 / 2)), some "PURCHASE", some "COFFEE SHOP", none⟩]
    spending_patterns := none
    risk_metrics := none
    engineered_features := none }

/-- A record whose only transaction has a non-numeric `amount`. -/
def recC2 : Record :=
  { statement_metadata := none
    account_info := none
    financial_summary := none
    transactions := [⟨some (.str "abc"), some "PURCHASE", some "GROCERY STORE", none⟩]
    spending_patterns := none
    risk_metrics := none
    engineered_features := none }

/-- The financial-integrity example of the spec: previous 100, purchases
50, fees 5, interest 2, payments 30, closing 127. -/
def recC4 : Record :=
  { statement_metadata := none
    account_info := none
    financial_summary := some
      { previous_balance := some 100
        purchases := some 50
        payments_credits := some 30
        fees_charged := some 5
        interest_charged := some 2
        closing_balance := some 127
        available_credit := none }
    transactions := []
    spending_patterns := none
    risk_metrics := none
    engineered_features := none }

/-- A record whose summary reports NEGATIVE fees (-5) while the itemised
transactions reconcile perfectly on purchases and payments and contain
no fees. -/
def recC5cx : Record :=
  { statement_metadata := none
    account_info := none
    financial_summary := some
      { previous_balance := none
        purchases := some 10
        payments_credits := none
        fees_charged := some (-5)
        interest_charged := none
        closing_balance := none
        available_credit := none }
    transactions := [⟨some (.num 10), some "PURCHASE", some "SHOP ONE", none⟩]
    spending_patterns := none
    risk_metrics := none
    engineered_features := none }

/-- A fully consistent one-transaction record (witness input). -/
def recC5w : Record :=
  { recC5cx with
    financial_summary := some
      { previous_balance := none
        purchases := some 10
        payments_credits := none
        fees_charged := none
        interest_charged := none
        closing_balance := none
        available_credit := none } }

/-- The record with nothing in it. -/
def emptyRecord : Record := ⟨none, none, none, [], none, none, none⟩

/-- A record whose raw card identifier is 13 characters long but whose
cleaned identifier has only 12 digits. -/
def recC7 : Record :=
  { emptyRecord with
    statement_metadata :=
      some { emptySMeta with card_identifier := some "123456789012-" } }

/-- A record carrying a record id (for the uniqueness witnesses). -/
def recC9a : Record :=
  { emptyRecord with
    statement_metadata := some { emptySMeta with record_id := some "rec-1" } }

/-- A record with a record id, a card identifier and a statement period
missing its end date. -/
def recC9b : Record :=
  { emptyRecord with
    statement_metadata :=
      some { emptySMeta with
        record_id := some "rec-1"
        card_identifier := some "411111******1111"
        statement_period := some ⟨some "2024-01-01", none⟩ } }

/-- The transaction appended in the monotonicity witness. -/
def txnC10 : Txn := ⟨some (.num 10), some "PURCHASE", some "SHOP A", none⟩

end MyProof

namespace MyProof

/-! ## Theorems -/

section

/- Batteries marks the `Rat` field operations `@[irreducible]`; restore
default reducibility locally so that `decide` can evaluate the embedded
pipeline on concrete records. -/
attribute [local semireducible] Rat.add Rat.mul Rat.sub Rat.inv

/-- `qmin` agrees with the order-theoretic `min`. -/
theorem qmin_eq_min (a b : ℚ) : qmin a b = min a b := by
  simp [qmin, min_def]

/-- `qmax` agrees with the order-theoretic `max`. -/
theorem qmax_eq_max (a b : ℚ) : qmax a b = max a b := by
  simp [qmax, max_def]

/-- `qabs` agrees with `|·|`. -/
theorem qabs_eq_abs (a : ℚ) : qabs a = |a| := by
  unfold qabs
  by_cases h : a < 0
  · rw [if_pos h, abs_of_neg h]
  · rw [if_neg h, abs_of_nonneg (not_lt.mp h)]

/-- **C3.** For every raw score `s` and country code `c`, the country
adjustment returns `adjusted = s * base_multiplier(tier(c)) +
scarcity_bonus(tier(c))`, `final_score = min(adjusted, 100)` and
`vana_score = final_score / 100`; an unknown or missing code is treated
as US (tier 1, multiplier 1.0, bonus 0); `s = 80` with code `"IN"`
(tier 4) yields final score 40 and vana score 0.4, and code `"ZZ"`
behaves identically to `"US"`. -/
theorem country_adjustment_formula :
    (∀ (s : ℚ) (c : Option String),
      (calculate_country_adjusted_score s c).adjusted_total =
        s * (get_country_info c).base_multiplier + (get_country_info c).scarcity_bonus ∧
      (get_country_info c).base_multiplier = tierMultiplier (get_country_info c).tier ∧
      (get_country_info c).scarcity_bonus = scarcityBonus (get_country_info c).tier ∧
      (calculate_country_adjusted_score s c).final_score =
        min (calculate_country_adjusted_score s c).adjusted_total 100 ∧
      (calculate_country_adjusted_score s c).vana_score =
        (calculate_country_adjusted_score s c).final_score / 100) ∧
    (∀ c, COUNTRY_TIERS.lookup (normalizeCountryCode c) = none →
      get_country_info c = get_country_info (some "US")) ∧
    get_country_info none = get_country_info (some "US") ∧
    get_country_info (some "US") =
      { country_code := "US", tier := 1, base_multiplier := 1,
        scarcity_bonus := 0, ppp_adjustment := 1 } ∧
    (∀ s, calculate_country_adjusted_score s (some "ZZ") =
      calculate_country_adjusted_score s (some "US")) ∧
    (get_country_info (some "IN")).tier = 4 ∧
    (calculate_country_adjusted_score 80 (some "IN")).final_score = 40 ∧
    (calculate_country_adjusted_score 80 (some "IN")).vana_score = 4 / 10 := by
  have hZZ : get_country_info (some "ZZ") = get_country_info (some "US") := by decide
  refine ⟨fun s c => ⟨rfl, rfl, rfl, by rw [← qmin_eq_min]; rfl, rfl⟩, fun c h => ?_,
    by decide, by decide, fun s => ?_, by decide, by decide, by decide⟩
  · simp only [get_country_info, h, Option.isSome_none, Bool.false_eq_true, if_false]
    decide
  · simp only [calculate_country_adjusted_score, hZZ]

/-- Witness for C3: `"ZZ"` is indeed absent from the table, and the
unknown-code clause applies to it. -/
theorem country_adjustment_formula_witness :
    COUNTRY_TIERS.lookup (normalizeCountryCode (some "ZZ")) = none ∧
    get_country_info (some "ZZ") = get_country_info (some "US") :=
  ⟨by decide, country_adjustment_formula.2.1 (some "ZZ") (by decide)⟩

/-- **C4.** The financial-integrity check computes the expected closing
balance as `previous + purchases + fees + interest - payments` and maps
the absolute difference to the reported closing balance through the
breakpoints `≤ 0.01 → 1.0`, `≤ 0.10 → 0.9`, `≤ 1.00 → 0.7`, else `0`;
the spec's example record (100/50/5/2/30/127) gets balance score 1 with
difference 0. -/
theorem financial_integrity_balance_score :
    (∀ r : Record,
      (validate_financial_integrity r).expected_closing =
        r.fin.previous_balance.getD 0 + r.fin.purchases.getD 0 +
          r.fin.fees_charged.getD 0 + r.fin.interest_charged.getD 0 -
          r.fin.payments_credits.getD 0 ∧
      (validate_financial_integrity r).balance_difference =
        |(validate_financial_integrity r).expected_closing - r.fin.closing_balance.getD 0| ∧
      ((validate_financial_integrity r).balance_difference ≤ 1 / 100 →
        (validate_financial_integrity r).balance_score = 1) ∧
      (1 / 100 < (validate_financial_integrity r).balance_difference →
        (validate_financial_integrity r).balance_difference ≤ 10 / 100 →
        (validate_financial_integrity r).balance_score = 9 / 10) ∧
      (10 / 100 < (validate_financial_integrity r).balance_difference →
        (validate_financial_integrity r).balance_difference ≤ 1 →
        (validate_financial_integrity r).balance_score = 7 / 10) ∧
      (1 < (validate_financial_integrity r).balance_difference →
        (validate_financial_integrity r).balance_score = 0)) ∧
    (validate_financial_integrity recC4).balance_score = 1 ∧
    (validate_financial_integrity recC4).balance_difference = 0 := by
  refine ⟨fun r => ⟨rfl, by rw [← qabs_eq_abs]; rfl, ?_, ?_, ?_, ?_⟩, by decide, by decide⟩
  · intro h
    simp only [validate_financial_integrity] at h ⊢
    rw [if_pos h]
  · intro h1 h2
    simp only [validate_financial_integrity] at h1 h2 ⊢
    rw [if_neg (by linarith), if_pos h2]
  · intro h1 h2
    simp only [validate_financial_integrity] at h1 h2 ⊢
    rw [if_neg (by linarith), if_neg (by linarith), if_pos h2]
  · intro h
    simp only [validate_financial_integrity] at h ⊢
    rw [if_neg (by linarith), if_neg (by linarith), if_neg (by linarith)]

/-- Witness for C4: the spec's own example discharges the first
breakpoint hypothesis. -/
theorem financial_integrity_balance_score_witness :
    (validate_financial_integrity recC4).balance_difference ≤ 1 / 100 ∧
    (validate_financial_integrity recC4).balance_score = 1 :=
  ⟨by decide, ((financial_integrity_balance_score.1 recC4).2.2.1) (by decide)⟩

/-- **C8.** The completeness analyzer scores each tier as
`(# present) / (# fields in tier)` over its fixed path list, combines
them as `0.60·t1 + 0.25·t2 + 0.15·t3`, reports `is_complete` exactly at
weighted sum `≥ 0.8`, and a field is present iff every intermediate key
of its dot-separated path exists and the leaf is non-null (the
`transactions` leaf requiring a non-empty list). -/
theorem completeness_weighted_tiers (data : JValue) :
    (calculate_completeness_score data).tier1_score =
      (tier1_fields.countP (fun f => has_field data f) : ℚ) / (tier1_fields.length : ℚ) ∧
    (calculate_completeness_score data).tier2_score =
      (tier2_fields.countP (fun f => has_field data f) : ℚ) / (tier2_fields.length : ℚ) ∧
    (calculate_completeness_score data).tier3_score =
      (tier3_fields.countP (fun f => has_field data f) : ℚ) / (tier3_fields.length : ℚ) ∧
    (calculate_completeness_score data).completeness_score =
      60 / 100 * (calculate_completeness_score data).tier1_score +
      25 / 100 * (calculate_completeness_score data).tier2_score +
      15 / 100 * (calculate_completeness_score data).tier3_score ∧
    ((calculate_completeness_score data).is_complete = true ↔
      (calculate_completeness_score data).completeness_score ≥ 8 / 10) ∧
    (∀ p, has_field data p = true ↔
      ∃ v, jWalk data (pySplitDot p) = some v ∧
        (if p = "transactions" then ∃ xs, v = .arr xs ∧ xs ≠ [] else v ≠ .null)) := by
  refine ⟨rfl, rfl, rfl, rfl, ?_, fun p => ?_⟩
  · exact decide_eq_true_iff
  · unfold has_field
    cases hw : jWalk data (pySplitDot p) with
    | none => simp
    | some v =>
        by_cases hp : p = "transactions"
        · subst hp
          simp only [if_pos rfl]
          cases v <;> simp [List.isEmpty_iff]
        · simp only [if_neg hp]
          cases v <;> simp

/-- A decimal digit character is neither a space nor a dash (so the
separator strip of `luhn_validate` keeps it). -/
theorem digit_not_sep (c : Char) (h : c.isDigit = true) :
    (!(c = ' ' || c = '-')) = true := by
  have h1 : c ≠ ' ' := by rintro rfl; exact absurd h (by decide)
  have h2 : c ≠ '-' := by rintro rfl; exact absurd h (by decide)
  simp [h1, h2]

/-- The numeric value of a digit character is at most 9. -/
theorem digit_val_le (c : Char) (h : c.isDigit = true) : c.toNat - 48 ≤ 9 := by
  simp only [Char.isDigit, Bool.and_eq_true, decide_eq_true_eq] at h
  have h2 := h.2
  have : c.toNat ≤ 57 := by
    simpa [UInt32.le_def, BitVec.le_def, Char.toNat] using h2
  omega

/-- `everyOther` steps through a cons by skipping one element. -/
theorem everyOther_cons (x : α) (l : List α) :
    everyOther (x :: l) = x :: everyOther (l.drop 1) := by
  cases l <;> rfl

/-- For a decimal digit, the digit sum of its double is the spec's
"double, and subtract 9 past 9" contribution. -/
theorem pyDigitSum_two_mul (b : ℕ) (hb : b ≤ 9) :
    pyDigitSum (b * 2) = specDouble b := by
  unfold pyDigitSum specDouble
  split <;> omega

/-- The odd/even slicing sum of `luhn_checksum` equals the spec's
rightmost-first alternating sum (on digit lists). -/
theorem eo_sum (n : ℕ) : ∀ l : List ℕ, l.length ≤ n → (∀ d ∈ l, d ≤ 9) →
    (everyOther l).sum +
      ((everyOther (l.drop 1)).map (fun d => pyDigitSum (d * 2))).sum =
      specLuhnAux l := by
  induction n with
  | zero =>
      intro l hl _
      have : l = [] := List.length_eq_zero.mp (Nat.le_zero.mp hl)
      subst this
      rfl
  | succ n ih =>
      intro l hl hb
      match l with
      | [] => rfl
      | [a] => simp [everyOther, specLuhnAux]
      | a :: b :: rest =>
          have hrest : rest.length ≤ n := by
            simp only [List.length_cons] at hl
            omega
          have hbr : ∀ d ∈ rest, d ≤ 9 := fun d hd => hb d (by simp [hd])
          have ihr := ih rest hrest hbr
          have hb9 : b ≤ 9 := hb b (by simp)
          show (a :: everyOther rest).sum +
            ((everyOther (b :: rest)).map (fun d => pyDigitSum (d * 2))).sum =
            a + specDouble b + specLuhnAux rest
          rw [everyOther_cons b rest]
          simp only [List.sum_cons, List.map_cons, pyDigitSum_two_mul b hb9]
          omega

/-- **C6.** The Luhn validator accepts a (non-empty) digit string iff
the mod-10 checksum — double every second digit from the rightmost, sum
the digits of any doubled result past 9, total everything — is 0; the
known-valid number "4532015112830366" validates true, and changing any
single digit of it produces a string the validator rejects. -/
theorem luhn_validator_correct :
    (∀ ds : List Char, ds ≠ [] → (∀ c ∈ ds, c.isDigit = true) →
      (luhn_validate (String.mk ds) = true ↔
        specLuhnSum (ds.map (fun c => c.toNat - 48)) % 10 = 0)) ∧
    luhn_validate "4532015112830366" = true ∧
    (∀ i : Fin 16, ∀ v : Fin 10,
      (v : ℕ) ≠ [4, 5, 3, 2, 0, 1, 5, 1, 1, 2, 8, 3, 0, 3, 6, 6].getD i 0 →
      luhn_validate (String.mk
        (([4, 5, 3, 2, 0, 1, 5, 1, 1, 2, 8, 3, 0, 3, 6, 6].set i v).map
          (fun n => Char.ofNat (48 + n)))) = false) := by
  refine ⟨fun ds hne hdig => ?_, by decide, by decide⟩
  have hfilter : ds.filter (fun c => !(c = ' ' || c = '-')) = ds :=
    List.filter_eq_self.mpr (fun c hc => digit_not_sep c (hdig c hc))
  have htl : (String.mk ds).toList = ds := rfl
  have hpd : pyIsDigit (String.mk (ds.filter (fun c => !(c = ' ' || c = '-')))) = true := by
    rw [hfilter]
    unfold pyIsDigit
    have : ds.length ≠ 0 := fun h => hne (List.eq_nil_of_length_eq_zero h)
    simp only [htl, Bool.and_eq_true, bne_iff_ne, ne_eq, String.length, htl]
    exact ⟨this, List.all_eq_true.mpr (fun c hc => hdig c hc)⟩
  have hcs : luhn_checksum (String.mk ds) =
      specLuhnSum (ds.map (fun c => c.toNat - 48)) % 10 := by
    have hb : ∀ d ∈ (ds.map (fun c => c.toNat - 48)).reverse, d ≤ 9 := by
      intro d hd
      rw [List.mem_reverse, List.mem_map] at hd
      obtain ⟨c, hc, rfl⟩ := hd
      exact digit_val_le c (hdig c hc)
    have he := eo_sum ((ds.map (fun c => c.toNat - 48)).reverse).length
      ((ds.map (fun c => c.toNat - 48)).reverse) le_rfl hb
    exact congrArg (fun n => n % 10) he
  have hlv : luhn_validate (String.mk ds) = (luhn_checksum (String.mk ds) == 0) := by
    unfold luhn_validate
    simp only [show (String.mk ds).toList = ds from rfl, hfilter]
    rw [hfilter] at hpd
    simp only [hpd, Bool.not_true, Bool.false_eq_true, if_false]
  rw [hlv, hcs]
  simp

/-- Witness for C6: the hypotheses of both quantified parts hold at the
spec's own test number (and at flipping its first digit to 0). -/
theorem luhn_validator_correct_witness :
    ("4532015112830366".toList ≠ [] ∧
      (∀ c ∈ "4532015112830366".toList, c.isDigit = true)) ∧
    (luhn_validate (String.mk "4532015112830366".toList) = true ↔
      specLuhnSum ("4532015112830366".toList.map (fun c => c.toNat - 48)) % 10 = 0) ∧
    luhn_validate (String.mk
      (([4, 5, 3, 2, 0, 1, 5, 1, 1, 2, 8, 3, 0, 3, 6, 6].set (0 : Fin 16) (0 : Fin 10)).map
        (fun n => Char.ofNat (48 + n)))) = false :=
  ⟨⟨by decide, by decide⟩,
    luhn_validator_correct.1 _ (by decide) (by decide),
    luhn_validator_correct.2.2 0 0 (by decide)⟩

/-- Counterexample for C7: the identifier `"123456789012-"` cleans to 12
digits (fewer than 13), yet the fraud detector still evaluates it —
because the length gate reads the raw identifier (13 characters) — and
reports it fraudulent. -/
theorem fraud_gate_raw_length_cx :
    ("123456789012-".toList.filter
      (fun c => !(c = '*' || c = '-' || c = ' '))).length = 12 ∧
    (12 : ℕ) < 13 ∧
    (detect_card_fraud recC7).is_fraudulent = true ∧
    (detect_card_fraud recC7).fraud_indicators ≠ [] := by
  refine ⟨by decide, by decide, by decide, by decide⟩

/-- **C7 (amended).** The fraud detector strips separators and evaluates
fraud indicators only when the RAW identifier is at least 13 characters
long and the cleaned string is fully numeric; records whose raw
identifier is shorter than 13 characters (or whose cleaned identifier is
not fully numeric) produce no fraud indicators. -/
theorem fraud_gate_raw_length_amended (r : Record)
    (h : (r.smeta.card_identifier.getD "").length < 13 ∨
      pyIsDigit (String.mk ((r.smeta.card_identifier.getD "").toList.filter
        (fun c => !(c = '*' || c = '-' || c = ' ')))) = false) :
    detect_card_fraud r = ⟨false, []⟩ := by
  have hcond : ¬((r.smeta.card_identifier.getD "").length ≥ 13 ∧
      pyIsDigit (String.mk ((r.smeta.card_identifier.getD "").toList.filter
        (fun c => !(c = '*' || c = '-' || c = ' ')))) = true) := by
    rcases h with h | h
    · exact fun hc => absurd hc.1 (by omega)
    · exact fun hc => by rw [h] at hc; exact absurd hc.2 (by simp)
  simp only [detect_card_fraud]
  rw [if_neg hcond]
  rfl

/-- Witness for C7 (amended): a record with no card identifier at all
satisfies the short-identifier hypothesis. -/
theorem fraud_gate_raw_length_amended_witness :
    (emptyRecord.smeta.card_identifier.getD "").length < 13 ∧
    detect_card_fraud emptyRecord = ⟨false, []⟩ :=
  ⟨by decide, fraud_gate_raw_length_amended emptyRecord (Or.inl (by decide))⟩

/-- **C9.** The uniqueness check fails with MISSING_RECORD_ID exactly
when the record id is missing (or empty, which Python treats
identically); when the id is present, a raising ledger lookup yields
BLOCKCHAIN_CHECK_FAILED (a returned value, never an uncaught exception),
a positive prior-contribution count yields DUPLICATE_RECORD_ID, and —
with no ledger objection — a present statement period plus card
identifier with a missing bound date yields INVALID_STATEMENT_PERIOD. -/
theorem uniqueness_reasons (r : Record) (client : Option (Except String ℕ)) :
    ((validate_uniqueness r client).reason = some "MISSING_RECORD_ID" ↔
      pyStrTruthy r.smeta.record_id = false) ∧
    (pyStrTruthy r.smeta.record_id = false →
      validate_uniqueness r client = ⟨false, some "MISSING_RECORD_ID"⟩) ∧
    (pyStrTruthy r.smeta.record_id = true → ∀ e, client = some (.error e) →
      validate_uniqueness r client = ⟨false, some "BLOCKCHAIN_CHECK_FAILED"⟩) ∧
    (pyStrTruthy r.smeta.record_id = true → ∀ n, client = some (.ok n) → 0 < n →
      validate_uniqueness r client = ⟨false, some "DUPLICATE_RECORD_ID"⟩) ∧
    (pyStrTruthy r.smeta.record_id = true →
      (client = none ∨ client = some (.ok 0)) →
      ∀ sp, r.smeta.statement_period = some sp →
      pyStrTruthy r.smeta.card_identifier = true →
      (pyStrTruthy sp.start_date = false ∨ pyStrTruthy sp.end_date = false) →
      validate_uniqueness r client = ⟨false, some "INVALID_STATEMENT_PERIOD"⟩) := by
  have hperiod : ∀ sp, r.smeta.statement_period = some sp →
      pyStrTruthy r.smeta.card_identifier = true →
      (pyStrTruthy sp.start_date = false ∨ pyStrTruthy sp.end_date = false) →
      uniquenessPeriodCheck r = ⟨false, some "INVALID_STATEMENT_PERIOD"⟩ := by
    intro sp hsp hcard hdate
    have hd : (!pyStrTruthy sp.start_date || !pyStrTruthy sp.end_date) = true := by
      rcases hdate with h | h <;> simp [h]
    simp [uniquenessPeriodCheck, hsp, hcard, hd]
  have hpc_reason : (uniquenessPeriodCheck r).reason ≠ some "MISSING_RECORD_ID" := by
    cases hsp2 : r.smeta.statement_period with
    | none => simp [uniquenessPeriodCheck, hsp2]
    | some sp =>
        simp only [uniquenessPeriodCheck, hsp2]
        by_cases hc : pyStrTruthy r.smeta.card_identifier = true
        · simp only [hc, if_true]
          split <;> simp
        · simp [hc]
  cases htr : pyStrTruthy r.smeta.record_id with
  | false =>
      have hv : validate_uniqueness r client = ⟨false, some "MISSING_RECORD_ID"⟩ := by
        unfold validate_uniqueness
        rw [htr]
        rfl
      refine ⟨by rw [hv]; simp, fun _ => hv, ?_, ?_, ?_⟩ <;>
        exact fun h => absurd h (by decide)
  | true =>
      have hv : validate_uniqueness r client =
          (match client with
            | some (.ok n) =>
                if n > 0 then ⟨false, some "DUPLICATE_RECORD_ID"⟩
                else uniquenessPeriodCheck r
            | some (.error _) => ⟨false, some "BLOCKCHAIN_CHECK_FAILED"⟩
            | none => uniquenessPeriodCheck r) := by
        unfold validate_uniqueness
        rw [htr]
        rfl
      refine ⟨?_, fun h => absurd h (by decide),
        fun _ e he => ?_, fun _ n hn hpos => ?_, fun _ hcl sp hsp hcard hdate => ?_⟩
      · constructor
        · intro hr
          exfalso
          rw [hv] at hr
          rcases client with _ | cl
          · exact hpc_reason hr
          · rcases cl with e | n
            · simp at hr
            · dsimp only at hr
              by_cases hn : n > 0
              · rw [if_pos hn] at hr
                simp at hr
              · rw [if_neg hn] at hr
                exact hpc_reason hr
        · intro hf
          exact absurd hf (by decide)
      · rw [hv, he]
      · rw [hv, hn]
        simp [hpos]
      · rcases hcl with h | h <;> rw [hv, h]
        · exact hperiod sp hsp hcard hdate
        · simpa using hperiod sp hsp hcard hdate

/-- Monadic bind on an `ok` value reduces. -/
theorem bind_ok_eq {α β : Type} (a : α) (f : α → Except String β) :
    (Except.ok a >>= f : Except String β) = f a := rfl

/-- The purchases generator computes the claim's filtered sum when every
amount parses. -/
theorem sumPurchases_ok (ts : List Txn)
    (h : ∀ t ∈ ts, ∃ q, pyFloatAmount t.amount = .ok q) :
    sumPurchases ts = .ok (((ts.filter (fun t =>
      t.typU = "PURCHASE" && decide (amtD t > 0))).map amtD).sum) := by
  induction ts with
  | nil => rfl
  | cons t ts ih =>
      obtain ⟨q, hq⟩ := h t (by simp)
      have hts := ih (fun t' ht' => h t' (by simp [ht']))
      have hamt : amtD t = q := by simp [amtD, hq]
      by_cases hty : t.typU = "PURCHASE"
      · by_cases hq0 : q > 0
        · simp [sumPurchases, hty, hq, hts, bind_ok_eq, List.filter_cons, hamt, hq0]
        · simp [sumPurchases, hty, hq, hts, bind_ok_eq, List.filter_cons, hamt, hq0]
      · simp [sumPurchases, hty, hts, List.filter_cons]

/-- The payments generator computes the claim's filtered absolute sum
when every amount parses. -/
theorem sumPayments_ok (ts : List Txn)
    (h : ∀ t ∈ ts, ∃ q, pyFloatAmount t.amount = .ok q) :
    sumPayments ts = .ok (((ts.filter (fun t =>
      t.typU = "PAYMENT" && decide (amtD t < 0))).map (fun t => |amtD t|)).sum) := by
  induction ts with
  | nil => rfl
  | cons t ts ih =>
      obtain ⟨q, hq⟩ := h t (by simp)
      have hts := ih (fun t' ht' => h t' (by simp [ht']))
      have hamt : amtD t = q := by simp [amtD, hq]
      by_cases hty : t.typU = "PAYMENT"
      · by_cases hq0 : q < 0
        · simp [sumPayments, hty, hq, hts, bind_ok_eq, List.filter_cons, hamt, hq0,
            qabs_eq_abs]
        · simp [sumPayments, hty, hq, hts, bind_ok_eq, List.filter_cons, hamt, hq0]
      · simp [sumPayments, hty, hts, List.filter_cons]

/-- The fees generator computes the claim's filtered sum when every
amount parses. -/
theorem sumFees_ok (ts : List Txn)
    (h : ∀ t ∈ ts, ∃ q, pyFloatAmount t.amount = .ok q) :
    sumFees ts = .ok (((ts.filter (fun t => t.typU = "FEE")).map amtD).sum) := by
  induction ts with
  | nil => rfl
  | cons t ts ih =>
      obtain ⟨q, hq⟩ := h t (by simp)
      have hts := ih (fun t' ht' => h t' (by simp [ht']))
      have hamt : amtD t = q := by simp [amtD, hq]
      by_cases hty : t.typU = "FEE"
      · simp [sumFees, hty, hq, hts, bind_ok_eq, List.filter_cons, hamt]
      · simp [sumFees, hty, hts, List.filter_cons]

/-- Counterexample for C5: a summary reporting NEGATIVE fees (-5) with
no itemised fees.  The code's fee comparison is vacuous for any
non-positive summary fee (`if summary_fees > 0 else True`), so it scores
3/3; the claim's rule — compare within 0.02, vacuous only at ZERO —
scores 2/3. -/
theorem fee_match_negative_fees_cx :
    validate_transaction_consistency recC5cx = .ok
      { consistency_score := 1, is_valid := true, purchase_match := true,
        payment_match := true, fee_match := true,
        calculated_purchases := 10, calculated_payments := 0, calculated_fees := 0 } ∧
    recC5cx.fin.fees_charged.getD 0 = -5 ∧
    claimConsistencyScore recC5cx = 2 / 3 ∧
    ((1 : ℚ) ≠ 2 / 3) :=
  ⟨by decide, by decide, by decide, by decide⟩

/-- **C5 (amended).** For every record with a non-empty transaction list
whose amounts are all numeric, the consistency check recomputes
purchases (type PURCHASE, amount > 0), payments (|amount|, type PAYMENT,
amount < 0) and fees (type FEE), compares each to the matching summary
field within absolute tolerance 0.02 — the fee comparison vacuously true
when the summary fees are zero OR NEGATIVE (the code tests
`summary_fees > 0`) — and sets `consistency_score = (# matches)/3` with
`is_valid` iff ≥ 0.8; an empty transaction list yields score 0 and
`is_valid = false`. -/
theorem transaction_consistency_amended :
    (∀ r : Record, r.transactions = [] →
      validate_transaction_consistency r = .ok ⟨0, false, false, false, false, 0, 0, 0⟩) ∧
    (∀ r : Record, r.transactions ≠ [] →
      (∀ t ∈ r.transactions, ∃ q, pyFloatAmount t.amount = .ok q) →
      validate_transaction_consistency r = .ok (amendedConsResult r)) ∧
    (∀ r : Record, (amendedConsResult r).is_valid = true ↔
      (amendedConsResult r).consistency_score ≥ 8 / 10) := by
  refine ⟨fun r h => by simp [validate_transaction_consistency, h],
    fun r hne h => ?_, fun r => decide_eq_true_iff⟩
  have hp := sumPurchases_ok r.transactions h
  have hpay := sumPayments_ok r.transactions h
  have hf := sumFees_ok r.transactions h
  have hemp : r.transactions.isEmpty = false := by
    simpa [List.isEmpty_iff] using hne
  unfold validate_transaction_consistency
  rw [hemp]
  simp only [Bool.false_eq_true, if_false, hp, hpay, hf, bind_ok_eq]
  simp only [amendedConsResult, claimPurchases, claimPayments, claimFees, qabs_eq_abs]
  rfl

/-- Witness for C5 (amended): both branches fire — the empty record, and
a fully consistent one-transaction record, whose amended result is a
perfect 3/3. -/
theorem transaction_consistency_amended_witness :
    validate_transaction_consistency emptyRecord =
      .ok ⟨0, false, false, false, false, 0, 0, 0⟩ ∧
    validate_transaction_consistency recC5w = .ok (amendedConsResult recC5w) ∧
    amendedConsResult recC5w = ⟨1, true, true, true, true, 10, 0, 0⟩ :=
  ⟨transaction_consistency_amended.1 emptyRecord rfl,
    transaction_consistency_amended.2.1 recC5w (by decide)
      (fun t ht => by
        simp only [recC5w, recC5cx] at ht
        simp only [List.mem_singleton] at ht
        exact ⟨10, by subst ht; rfl⟩),
    by decide⟩

/-- **C1.** Refutation evidence: the fraud detector flags `recC1` as
fraudulent (its unmasked 16-digit identifier even fails Luhn), yet the
score-aggregation pipeline — which never invokes `detect_card_fraud` or
the PII scanner — returns a `valid := true` result with a positive
score (21.7 raw points, vana score 0.217), and `generate` forwards it as
a successful response instead of a zero-score rejection. -/
theorem fraud_gate_not_wired :
    (detect_card_fraud recC1).is_fraudulent = true ∧
    calculate_credit_statement_score recC1 =
      .ok { score := 217 / 1000, total_points := 217 / 10, quality := 217 / 1000,
            valid := true, rejected := false, reason := none,
            country_info := { country_code := "US", tier := 1, base_multiplier := 1,
                              scarcity_bonus := 0, ppp_adjustment := 1 },
            raw_total := 217 / 10, country_multiplier := 1, scarcity_bonus := 0,
            country_adjusted_total := 217 / 10 } ∧
    (0 : ℚ) < 217 / 1000 ∧
    generate (some recC1) true = .ok ⟨true, 217 / 1000, 217 / 1000, 1, 1, 1, none⟩ :=
  ⟨by decide, by decide, by decide, by decide⟩

/-- **C2.** Refutation evidence: `recC2`'s only transaction carries the
non-numeric amount `"abc"`; `float` on it raises `ValueError` inside
`calculate_transaction_diversity_score`, nothing catches it, and the
exception escapes the top-level `generate` call instead of zeroing that
sub-check's contribution. -/
theorem exception_escapes_generate :
    recC2.transactions.map (fun t => t.amount) = [some (.str "abc")] ∧
    parsePyFloat "abc" = none ∧
    calculate_credit_statement_score recC2 = .error "ValueError" ∧
    generate (some recC2) true = .error "ValueError" :=
  ⟨by decide, by decide, by decide, by decide⟩

/-- `jWalk` on a dictionary and a non-empty path looks the first key up. -/
theorem jWalk_obj_cons (kvs : List (String × JValue)) (k : String) (ks : List String) :
    jWalk (.obj kvs) (k :: ks) =
      (match kvs.lookup k with
        | some v => jWalk v ks
        | none => none) := rfl

/-- Looking a key up in a single optional-field segment. -/
theorem lookup_optField (k k1 : String) (f : α → JValue) (o : Option α) :
    (optField k1 f o).lookup k = if k = k1 then o.map f else none := by
  cases o with
  | none => simp [optField]
  | some a =>
      by_cases hk : k = k1
      · have hb : (k == k1) = true := by simp [hk]
        simp [optField, List.lookup, hb, hk]
      · have hb : (k == k1) = false := by simp [hk]
        simp [optField, List.lookup, hb, hk]

/-- The entries before the `transactions` key never carry that key. -/
theorem lookup_jPre_trans (r : Record) : r.jPre.lookup "transactions" = none := by
  unfold Record.jPre
  rw [List.lookup_append, List.lookup_append, lookup_optField, lookup_optField,
    lookup_optField]
  simp

theorem jPre_append (r : Record) (t : Txn) : (appendTxn r t).jPre = r.jPre := rfl

theorem jPost_append (r : Record) (t : Txn) : (appendTxn r t).jPost = r.jPost := rfl

/-- Appending a transaction does not change the presence of any field
whose path does not start at the `transactions` key. -/
theorem has_field_toJ_append_eq (r : Record) (t : Txn) (p k : String) (ks : List String)
    (hsplit : pySplitDot p = k :: ks) (hk : (k == "transactions") = false) :
    has_field (appendTxn r t).toJ p = has_field r.toJ p := by
  unfold has_field
  rw [hsplit]
  have e1 : (appendTxn r t).toJ = JValue.obj (r.jPre ++
      [("transactions", JValue.arr ((r.transactions ++ [t]).map Txn.toJ))] ++ r.jPost) := rfl
  have e2 : r.toJ = JValue.obj (r.jPre ++
      [("transactions", JValue.arr (r.transactions.map Txn.toJ))] ++ r.jPost) := rfl
  have hlk : ∀ xs : List JValue,
      ((r.jPre ++ [("transactions", JValue.arr xs)] ++ r.jPost).lookup k) =
        ((r.jPre.lookup k).or (r.jPost.lookup k)) := by
    intro xs
    rw [List.lookup_append, List.lookup_append]
    have hmid : ([("transactions", JValue.arr xs)].lookup k) = none := by
      simp only [List.lookup, hk]
    rw [hmid]
    simp
  rw [e1, e2, jWalk_obj_cons, jWalk_obj_cons, hlk, hlk]

/-- The `transactions` field is present iff the transaction list is
non-empty. -/
theorem has_field_toJ_trans (r : Record) :
    has_field r.toJ "transactions" = !r.transactions.isEmpty := by
  unfold has_field
  rw [show pySplitDot "transactions" = ["transactions"] from rfl]
  rw [show r.toJ = JValue.obj (r.jPre ++
      [("transactions", JValue.arr (r.transactions.map Txn.toJ))] ++ r.jPost) from rfl]
  rw [jWalk_obj_cons, List.lookup_append, List.lookup_append, lookup_jPre_trans]
  rw [show ([("transactions", JValue.arr (r.transactions.map Txn.toJ))].lookup
      "transactions") = some (JValue.arr (r.transactions.map Txn.toJ)) from by
    simp [List.lookup]]
  cases r.transactions <;> simp [jWalk]

/-- When the transaction list is already non-empty, appending leaves the
tier-1/tier-2 coverage unchanged (the only coverage-relevant change,
list non-emptiness, is invariant). -/
theorem cov12_eq_of_ne (r : Record) (t : Txn) (h : r.transactions ≠ []) :
    cov12 (appendTxn r t) = cov12 r := by
  have hfx : ∀ p, p ∈ tier1_fields ∨ p ∈ tier2_fields →
      has_field (appendTxn r t).toJ p = has_field r.toJ p := by
    intro p hp
    have hmem : p = "statement_metadata.record_id" ∨ p = "statement_metadata.statement_date" ∨
        p = "statement_metadata.statement_period.start_date" ∨
        p = "statement_metadata.statement_period.end_date" ∨
        p = "financial_summary.previous_balance" ∨ p = "financial_summary.closing_balance" ∨
        p = "financial_summary.purchases" ∨ p = "financial_summary.payments_credits" ∨
        p = "transactions" ∨ p = "account_info.card_brand" ∨ p = "account_info.credit_limit" ∨
        p = "financial_summary.fees_charged" ∨ p = "financial_summary.interest_charged" ∨
        p = "financial_summary.available_credit" := by
      rcases hp with hp | hp <;> simp only [tier1_fields, tier2_fields,
        List.mem_cons, List.mem_singleton] at hp <;> tauto
    rcases hmem with rfl | rfl | rfl | rfl | rfl | rfl | rfl | rfl | rfl | rfl | rfl | rfl |
      rfl | rfl
    · exact has_field_toJ_append_eq r t _ "statement_metadata" _ rfl rfl
    · exact has_field_toJ_append_eq r t _ "statement_metadata" _ rfl rfl
    · exact has_field_toJ_append_eq r t _ "statement_metadata" _ rfl rfl
    · exact has_field_toJ_append_eq r t _ "statement_metadata" _ rfl rfl
    · exact has_field_toJ_append_eq r t _ "financial_summary" _ rfl rfl
    · exact has_field_toJ_append_eq r t _ "financial_summary" _ rfl rfl
    · exact has_field_toJ_append_eq r t _ "financial_summary" _ rfl rfl
    · exact has_field_toJ_append_eq r t _ "financial_summary" _ rfl rfl
    · rw [has_field_toJ_trans, has_field_toJ_trans,
        show (appendTxn r t).transactions = r.transactions ++ [t] from rfl]
      cases hr2 : r.transactions with
      | nil => exact absurd hr2 h
      | cons a l => simp
    · exact has_field_toJ_append_eq r t _ "account_info" _ rfl rfl
    · exact has_field_toJ_append_eq r t _ "account_info" _ rfl rfl
    · exact has_field_toJ_append_eq r t _ "financial_summary" _ rfl rfl
    · exact has_field_toJ_append_eq r t _ "financial_summary" _ rfl rfl
    · exact has_field_toJ_append_eq r t _ "financial_summary" _ rfl rfl
  have hc1 : tier1_fields.countP (fun f => has_field (appendTxn r t).toJ f) =
      tier1_fields.countP (fun f => has_field r.toJ f) :=
    List.countP_congr (fun x hx => by rw [hfx x (Or.inl hx)])
  have hc2 : tier2_fields.countP (fun f => has_field (appendTxn r t).toJ f) =
      tier2_fields.countP (fun f => has_field r.toJ f) :=
    List.countP_congr (fun x hx => by rw [hfx x (Or.inr hx)])
  unfold cov12 calculate_completeness_score calculate_tier_score
  dsimp only
  rw [hc1, hc2]

theorem qmin_nonneg (a b : ℚ) (ha : 0 ≤ a) (hb : 0 ≤ b) : 0 ≤ qmin a b := by
  unfold qmin
  split <;> assumption

theorem qmin_mono_left (a b c : ℚ) (h : a ≤ b) : qmin a c ≤ qmin b c := by
  rw [qmin_eq_min, qmin_eq_min]
  exact min_le_min h le_rfl

theorem tierMultiplier_nonneg (n : ℕ) : 0 ≤ tierMultiplier n := by
  unfold tierMultiplier
  split <;> norm_num

/-- Empty-list early returns of the transaction scorers. -/
theorem diversity_empty (r : Record) (h : r.transactions = []) :
    calculate_transaction_diversity_score r = .ok 0 := by
  simp [calculate_transaction_diversity_score, h]

theorem detail_empty (r : Record) (h : r.transactions = []) :
    calculate_transaction_detail_score r = .ok 0 := by
  simp [calculate_transaction_detail_score, h]

theorem volume_empty (r : Record) (h : r.transactions = []) :
    calculate_transaction_volume_score r = 0 := by
  simp [calculate_transaction_volume_score, h]

theorem volume_single (r : Record) (t : Txn) (h : r.transactions = [t]) :
    calculate_transaction_volume_score r = 2 := by
  simp [calculate_transaction_volume_score, h]

/-- The diversity tail on a singleton transaction list is non-negative
(the date component is 0 with at most one date). -/
theorem diversity_pure_single_nonneg (t : Txn) (a : ℚ) : 0 ≤ diversity_pure [t] [a] := by
  have key : ∀ u v w : ℚ, 0 ≤ u → 0 ≤ v → 0 ≤ w → 0 ≤ u * 8 + v * 7 + w * 5 := by
    intro u v w hu hv hw
    nlinarith
  unfold diversity_pure
  rcases htd : t.date with _ | d
  · simp only [List.filterMap_cons, List.filterMap_nil, htd, List.any_nil,
      Bool.false_eq_true, if_false, List.length_nil]
    refine qmin_nonneg _ _ (by norm_num) (key _ _ _ ?_ ?_ ?_)
    · exact div_nonneg (Nat.cast_nonneg _) (Nat.cast_nonneg _)
    · exact qmin_nonneg _ _ (div_nonneg (Nat.cast_nonneg _) (by norm_num)) (by norm_num)
    · rw [if_neg (by omega)]
  · cases d with
    | valid x =>
        simp only [List.filterMap_cons, List.filterMap_nil, htd, List.any_cons,
          List.any_nil, Bool.or_false, Bool.false_eq_true, if_false,
          List.length_cons, List.length_nil]
        rw [if_neg (by omega)]
        exact qmin_nonneg _ _ (by norm_num) (key _ _ _
          (div_nonneg (Nat.cast_nonneg _) (Nat.cast_nonneg _))
          (qmin_nonneg _ _ (div_nonneg (Nat.cast_nonneg _) (by norm_num)) (by norm_num))
          le_rfl)
    | invalid =>
        simp only [List.filterMap_cons, List.filterMap_nil, htd, List.any_cons,
          List.any_nil, Bool.or_false, if_true]
        exact qmin_nonneg _ _ (by norm_num) (key _ _ _
          (div_nonneg (Nat.cast_nonneg _) (Nat.cast_nonneg _))
          (qmin_nonneg _ _ (div_nonneg (Nat.cast_nonneg _) (by norm_num)) (by norm_num))
          le_rfl)

/-- On a singleton list with a numeric amount, the diversity scorer
succeeds with a non-negative value. -/
theorem diversity_single (r : Record) (t : Txn) (q : ℚ)
    (h : r.transactions = [t]) (hq : pyFloatAmount t.amount = .ok q) :
    ∃ dv, calculate_transaction_diversity_score r = .ok dv ∧ 0 ≤ dv := by
  have hmap : absAmounts r.transactions = .ok [qabs q] := by
    rw [h]
    simp [absAmounts, List.mapM, List.mapM.loop, hq, Except.map, bind_ok_eq]
  refine ⟨diversity_pure [t] [qabs q], ?_, diversity_pure_single_nonneg t (qabs q)⟩
  unfold calculate_transaction_diversity_score
  rw [h] at hmap ⊢
  rw [show (([t] : List Txn).isEmpty = false) from rfl]
  simp only [Bool.false_eq_true, if_false, hmap, bind_ok_eq]
  rfl

/-- The detail scorer's pure tail is non-negative. -/
theorem detail_pure_nonneg (ts : List Txn) (amounts : List ℚ) :
    0 ≤ detail_pure ts amounts := by
  unfold detail_pure
  have h1 : (0 : ℚ) ≤ (ts.countP (fun t => (t.description.getD "").length > 20) : ℚ) /
      (ts.length : ℚ) * 10 := by
    apply mul_nonneg (div_nonneg (Nat.cast_nonneg _) (Nat.cast_nonneg _)) (by norm_num)
  have h2 : (0 : ℚ) ≤ (amounts.countP (fun amt => decide (1 ≤ amt) && decide (amt ≤ 5000)) : ℚ) /
      (ts.length : ℚ) * 5 := by
    apply mul_nonneg (div_nonneg (Nat.cast_nonneg _) (Nat.cast_nonneg _)) (by norm_num)
  dsimp only
  linarith

/-- On a singleton list with a numeric amount, the detail scorer
succeeds with a non-negative value. -/
theorem detail_single (r : Record) (t : Txn) (q : ℚ)
    (h : r.transactions = [t]) (hq : pyFloatAmount t.amount = .ok q) :
    ∃ dv, calculate_transaction_detail_score r = .ok dv ∧ 0 ≤ dv := by
  have hmap : absAmounts r.transactions = .ok [qabs q] := by
    rw [h]
    simp [absAmounts, List.mapM, List.mapM.loop, hq, Except.map, bind_ok_eq]
  refine ⟨detail_pure [t] [qabs q], ?_, detail_pure_nonneg _ _⟩
  unfold calculate_transaction_detail_score
  rw [h] at hmap ⊢
  rw [show (([t] : List Txn).isEmpty = false) from rfl]
  simp only [Bool.false_eq_true, if_false, hmap, bind_ok_eq]
  rfl

/-- The core-statement score never decreases when the transaction list
goes from empty to non-empty and nothing else changes. -/
theorem core_mono (r : Record) (t : Txn) (hr : r.transactions = []) :
    calculate_core_statement_score r ≤ calculate_core_statement_score (appendTxn r t) := by
  unfold calculate_core_statement_score
  rw [show (appendTxn r t).smeta = r.smeta from rfl,
    show (appendTxn r t).acct = r.acct from rfl,
    show (appendTxn r t).transactions = r.transactions ++ [t] from rfl, hr]
  rw [show (if ([] : List Txn).length > 0 then (5 : ℚ) else 0) = 0 from if_neg (by simp),
    show (if (([] : List Txn) ++ [t]).length > 0 then (5 : ℚ) else 0) = 5 from
      if_pos (by simp)]
  rw [qmin_eq_min, qmin_eq_min]
  apply min_le_min _ le_rfl
  linarith

/-- The final response is monotone in the raw total (same record
metadata either side). -/
theorem scoreFromTotal_mono (r r2 : Record)
    (hcc : r2.smeta.country_code = r.smeta.country_code) (x y : ℚ) (hxy : x ≤ y) :
    (scoreFromTotal r x).total_points ≤ (scoreFromTotal r2 y).total_points ∧
    (scoreFromTotal r x).score ≤ (scoreFromTotal r2 y).score := by
  unfold scoreFromTotal calculate_country_adjusted_score
  rw [hcc]
  dsimp only
  have hm : 0 ≤ (get_country_info (some (r.smeta.country_code.getD "US"))).base_multiplier :=
    tierMultiplier_nonneg _
  have hxm : x * (get_country_info (some (r.smeta.country_code.getD "US"))).base_multiplier +
      (get_country_info (some (r.smeta.country_code.getD "US"))).scarcity_bonus ≤
      y * (get_country_info (some (r.smeta.country_code.getD "US"))).base_multiplier +
      (get_country_info (some (r.smeta.country_code.getD "US"))).scarcity_bonus := by
    have := mul_le_mul_of_nonneg_right hxy hm
    linarith
  have htot := qmin_mono_left _ _ 100 hxm
  exact ⟨htot, by apply div_le_div_of_nonneg_right htot (by norm_num)⟩

/-- **C10.** For every record `r` and transaction `t` with a numeric
amount, if appending `t` increases tier-1/tier-2 field coverage (which
forces `r`'s transaction list to be empty, since no other coverage field
depends on the list) and does not break balance consistency, the final
score of the extended record is at least that of `r`. -/
theorem score_monotone_add_transaction (r : Record) (t : Txn) (q : ℚ)
    (hamt : pyFloatAmount t.amount = .ok q)
    (_hbal : (validate_financial_integrity r).balance_score ≤
      (validate_financial_integrity (appendTxn r t)).balance_score)
    (hcov : cov12 (appendTxn r t) > cov12 r) :
    ∃ res res2, calculate_credit_statement_score r = .ok res ∧
      calculate_credit_statement_score (appendTxn r t) = .ok res2 ∧
      res.total_points ≤ res2.total_points ∧ res.score ≤ res2.score := by
  have hr : r.transactions = [] := by
    by_contra hne
    rw [cov12_eq_of_ne r t hne] at hcov
    exact lt_irrefl _ hcov
  have hext : (appendTxn r t).transactions = [t] := by
    simp [appendTxn, hr]
  obtain ⟨dv, hdv, hdv0⟩ := diversity_single (appendTxn r t) t q hext hamt
  obtain ⟨dt2, hdt, hdt0⟩ := detail_single (appendTxn r t) t q hext hamt
  have hr_ok : calculate_credit_statement_score r = .ok (scoreFromTotal r
      (calculate_transaction_volume_score r + 0 + 0 +
        calculate_core_statement_score r + calculate_account_completeness_score r +
        calculate_financial_consistency_score r)) := by
    unfold calculate_credit_statement_score
    rw [diversity_empty r hr, detail_empty r hr]
    rfl
  have he_ok : calculate_credit_statement_score (appendTxn r t) = .ok
      (scoreFromTotal (appendTxn r t)
        (calculate_transaction_volume_score (appendTxn r t) + dv + dt2 +
          calculate_core_statement_score (appendTxn r t) +
          calculate_account_completeness_score (appendTxn r t) +
          calculate_financial_consistency_score (appendTxn r t))) := by
    unfold calculate_credit_statement_score
    rw [hdv, hdt]
    rfl
  have hraw : calculate_transaction_volume_score r + 0 + 0 +
      calculate_core_statement_score r + calculate_account_completeness_score r +
      calculate_financial_consistency_score r ≤
      calculate_transaction_volume_score (appendTxn r t) + dv + dt2 +
      calculate_core_statement_score (appendTxn r t) +
      calculate_account_completeness_score (appendTxn r t) +
      calculate_financial_consistency_score (appendTxn r t) := by
    rw [volume_empty r hr, volume_single (appendTxn r t) t hext,
      show calculate_account_completeness_score (appendTxn r t) =
        calculate_account_completeness_score r from rfl,
      show calculate_financial_consistency_score (appendTxn r t) =
        calculate_financial_consistency_score r from rfl]
    have := core_mono r t hr
    linarith
  have hmono := scoreFromTotal_mono r (appendTxn r t)
    (show (appendTxn r t).smeta.country_code = r.smeta.country_code from rfl) _ _ hraw
  exact ⟨_, _, hr_ok, he_ok, hmono.1, hmono.2⟩

/-- Witness for C10: appending a plain purchase to the empty record
satisfies every hypothesis (the coverage rises from 0 to 1/9) and the
score rises accordingly. -/
theorem score_monotone_add_transaction_witness :
    pyFloatAmount txnC10.amount = .ok 10 ∧
    (validate_financial_integrity emptyRecord).balance_score ≤
      (validate_financial_integrity (appendTxn emptyRecord txnC10)).balance_score ∧
    cov12 (appendTxn emptyRecord txnC10) > cov12 emptyRecord ∧
    (∃ res res2, calculate_credit_statement_score emptyRecord = .ok res ∧
      calculate_credit_statement_score (appendTxn emptyRecord txnC10) = .ok res2 ∧
      res.total_points ≤ res2.total_points ∧ res.score ≤ res2.score) :=
  ⟨rfl, by decide, by decide,
    score_monotone_add_transaction emptyRecord txnC10 10 rfl (by decide) (by decide)⟩

/-- Witness for C9: each clause fires on its concrete record/client
pair. -/
theorem uniqueness_reasons_witness :
    validate_uniqueness emptyRecord none = ⟨false, some "MISSING_RECORD_ID"⟩ ∧
    validate_uniqueness recC9a (some (.error "boom")) =
      ⟨false, some "BLOCKCHAIN_CHECK_FAILED"⟩ ∧
    validate_uniqueness recC9a (some (.ok 3)) = ⟨false, some "DUPLICATE_RECORD_ID"⟩ ∧
    validate_uniqueness recC9b none = ⟨false, some "INVALID_STATEMENT_PERIOD"⟩ :=
  ⟨(uniqueness_reasons emptyRecord none).2.1 (by decide),
    (uniqueness_reasons recC9a (some (.error "boom"))).2.2.1 (by decide) "boom" rfl,
    (uniqueness_reasons recC9a (some (.ok 3))).2.2.2.1 (by decide) 3 rfl (by decide),
    (uniqueness_reasons recC9b none).2.2.2.2 (by decide) (Or.inl rfl)
      ⟨some "2024-01-01", none⟩ (by decide) (by decide) (Or.inr (by decide))⟩

end

end MyProof
